import Mathlib

/-! BountyHunterDemo: the AI collector controller.

A shallow embedding of `BountyHunterDemo/AICollectorController.cpp` and of the
constants of `BountyHunterDemo/GameConfiguration.h` it uses.

Conventions of the embedding:

* A `float` the controller reads (a constant, a configuration value, a random
  draw) is the rational it denotes, so comparisons are exact. A `float` product
  is the binary32 product: the exact product rounded to the nearest binary32
  value, ties to even, overflowing to an infinity (`floatMul`).
* Pointers to bounty entities are `Option Bounty` (`nullptr` is `none`).
* Every call the controller makes to a collaborator (pawn movement, `SDL_Log`,
  the strategy table, the renderer, `ChangeState`) is appended to the `trace`
  field of the controller, oldest call first.
* `assert` is checked: a failing assertion ends the call with an
  `AssertionFailure` carrying the controller as it was when the assertion ran.
* The values the environment hands to one `Update` call (the radar's detected
  bounty, the results of the calls to `glm::linearRand`, the positions the
  transform components report) are the fields of a `Frame`.
-/

namespace BountyHunterDemo

/-! ## Binary32 arithmetic -/

/-- A binary32 value that is not a NaN: a finite value, given by the rational it
denotes (the sign of a zero is not represented), or an infinity. -/
inductive Float32 where
  | finite (value : ℚ)
  | infinite (negative : Bool)
  deriving DecidableEq, Repr

/-- The fraction `n / d` (with `d` positive) rounded to the nearest natural
number, ties to the even one. -/
def roundHalfEven (n d : Nat) : Nat :=
  let q := n / d
  let r := n % d
  if 2 * r < d then q
  else if d < 2 * r then q + 1
  else if q % 2 = 0 then q else q + 1

/-- The binary logarithm of `n` rounded down (0 for `n < 2`), by repeated halving;
the first argument bounds the number of halvings. -/
def log2Fuel : Nat → Nat → Nat
  | 0, _ => 0
  | fuel + 1, n => if 2 ≤ n then log2Fuel fuel (n / 2) + 1 else 0

/-- The binary logarithm of the fraction `n / d` rounded down, for positive `n`
and `d`. -/
def floorLog2 (n d : Nat) : Int :=
  let l : Int := (log2Fuel n n : Int) - (log2Fuel d d : Int)
  if 0 ≤ l then (if d * 2 ^ l.toNat ≤ n then l else l - 1)
  else (if d ≤ n * 2 ^ (-l).toNat then l else l - 1)

/-- The positive fraction `n / d` rounded to binary32: 24 significant bits, the
unit in the last place never below `2 ^ (-149)` (subnormal range), ties to even;
`none` when the rounded value reaches `2 ^ 128` (overflow). -/
def roundMagnitude (n d : Nat) : Option ℚ :=
  let e : Int := max (floorLog2 n d - 23) (-149)
  if 0 ≤ e then
    let m := roundHalfEven n (d * 2 ^ e.toNat)
    if 2 ^ 128 ≤ m * 2 ^ e.toNat then none else some ((m * 2 ^ e.toNat : Nat) : ℚ)
  else
    some ((roundHalfEven (n * 2 ^ (-e).toNat) d : ℚ) / (2 ^ (-e).toNat : Nat))

/-- A rational rounded to binary32 in the default rounding mode (to nearest, ties
to even); a magnitude too large for binary32 gives the infinity of its sign. -/
def roundFloat (x : ℚ) : Float32 :=
  if x = 0 then .finite 0
  else
    match roundMagnitude x.num.natAbs x.den with
    | some v => .finite (if x < 0 then -v else v)
    | none => .infinite (decide (x < 0))

/-- The binary32 product of two finite `float` values. -/
def floatMul (a b : ℚ) : Float32 := roundFloat (a * b)

/-! ## GameConfiguration.h -/

/-- Collector max move speed, `25.0f`. -/
def COLLECTOR_MAX_MOVE_SPEED : ℚ := 25

/-- One degree in radians: the value of the `float` literal `0.0174533f`, which is
9370169 / 2 ^ 29 (`roundFloat (174533 / 10000000)`, see `RADIANS_eq`). -/
def RADIANS : ℚ := 9370169 / 536870912

/-- One full turn: the value of the `float` product `360.0f * RADIANS`, which is
411775 / 2 ^ 16 (`floatMul 360 RADIANS`, see `TURN_eq`). -/
def TURN : ℚ := 411775 / 65536

/-- Collector max turn speed, `TURN`. -/
def COLLECTOR_MAX_TURN_SPEED : ℚ := TURN

/-! ## Data model -/

/-- The closed set of FSM states of the collector controller. -/
inductive State where
  | SPAWNED
  | FIND_BOUNTY
  | WANDER
  | MOVE_TO_BOUNTY
  | BOUNTY_COLLECTED
  | STASH_BOUNTY
  deriving DecidableEq, Repr

/-- A position of the 2D world. -/
structure Vec2 where
  x : ℚ
  y : ℚ
  deriving DecidableEq, Repr

/-- A bounty entity: its identity and the position its transform component reports. -/
structure Bounty where
  id : Nat
  position : Vec2
  deriving DecidableEq, Repr

/-- The controlled pawn (`m_Pawn`): its entity id and the player it belongs to. -/
structure Collector where
  entityId : Nat
  player : Nat
  deriving DecidableEq, Repr

/-- The two log lines of the state hooks: "entered 'S' state." and "left 'S' state.". -/
inductive LogMessage where
  | entered (s : State)
  | left (s : State)
  deriving DecidableEq, Repr

/-- A call made by the controller to one of its collaborators. -/
inductive Event where
  | Stop
  | MoveForward (speed : ℚ)
  | TurnLeft (rate : Float32)
  | TurnRight (rate : Float32)
  | SDL_Log (player : Nat) (msg : LogMessage)
  | Strategy (selector : Nat) (detected : List Bounty)
  | ChangeStateCall (target : State)
  | DebugDrawRadar
  | DebugDrawAvoider
  | DrawLine (source target : Vec2)
  deriving DecidableEq, Repr

/-- The configuration record `AICollectorControllerDesc` (`m_AICD`). -/
structure AICollectorControllerDesc where
  m_BountyCollectStrategy : Nat
  m_WanderStateStayChance : ℚ
  m_SteeringRatio_Wander : ℚ
  deriving DecidableEq, Repr

/-- The controller object: the fields of `AICollectorController` the state
functions read and write, the active state of its FSM base (`none` for an FSM
that has not entered a state yet), and the trace of collaborator calls. -/
structure AICollectorController where
  m_Pawn : Collector
  m_AICD : AICollectorControllerDesc
  m_MyStashPosition : Vec2
  m_TargetedBounty : Option Bounty
  m_TargetedBountyPosition : Vec2
  m_isDead : Bool
  m_ActiveState : Option State
  trace : List Event
  deriving DecidableEq, Repr

/-- A bounty selection strategy: `(pawn, detected bounty) -> bounty or none`. -/
abbrev BountyCollectStrategy := Collector → List Bounty → Option Bounty

/-- The parts of the surrounding program that are not in the two source files and
are taken as parameters: the table `BountyCollectStrategies` indexed by the
strategy selector, and the constant `DEBUG_DRAWING_ENABLED`. -/
structure Engine where
  BountyCollectStrategies : Nat → BountyCollectStrategy
  DEBUG_DRAWING_ENABLED : Bool

/-- What the environment supplies to one `Update(dt)` call: the time step, the
list `m_BountyRadar->GetDetectedBounty()`, the values returned by the first and
the second call to `glm::linearRand(0.0f, 1.0f)`, and the positions that the
transform components of the pawn and of the entity `m_TargetedBounty` points to
report during the call (the latter is read only when a bounty is targeted). -/
structure Frame where
  dt : ℚ
  detected : List Bounty
  rand1 : ℚ
  rand2 : ℚ
  pawnPosition : Vec2
  targetedBountyPosition : Vec2
  deriving DecidableEq, Repr

/-- The failure raised by a failing `assert`. -/
structure AssertionFailure where
  message : String
  state : AICollectorController
  deriving DecidableEq, Repr

/-- Event `GameObjectKilled`. -/
structure GameObjectKilled where
  m_EntityID : Nat
  deriving DecidableEq, Repr

/-- Event `GameObjectSpawned`. -/
structure GameObjectSpawned where
  m_EntityID : Nat
  deriving DecidableEq, Repr

namespace AICollectorController

/-- Append one collaborator call to the trace. -/
def record (e : Event) (c : AICollectorController) : AICollectorController :=
  { c with trace := c.trace ++ [e] }

/-! ## Enter and leave hooks -/

/-- `S_SPAWNED_ENTER`: logs. -/
def S_SPAWNED_ENTER (c : AICollectorController) : AICollectorController :=
  c.record (.SDL_Log c.m_Pawn.player (.entered .SPAWNED))

/-- `S_SPAWNED_LEAVE`: logs. -/
def S_SPAWNED_LEAVE (c : AICollectorController) : AICollectorController :=
  c.record (.SDL_Log c.m_Pawn.player (.left .SPAWNED))

/-- `S_FIND_BOUNTY_ENTER`: logs. -/
def S_FIND_BOUNTY_ENTER (c : AICollectorController) : AICollectorController :=
  c.record (.SDL_Log c.m_Pawn.player (.entered .FIND_BOUNTY))

/-- `S_FIND_BOUNTY_LEAVE`: logs. -/
def S_FIND_BOUNTY_LEAVE (c : AICollectorController) : AICollectorController :=
  c.record (.SDL_Log c.m_Pawn.player (.left .FIND_BOUNTY))

/-- `S_WANDER_ENTER`: logs. -/
def S_WANDER_ENTER (c : AICollectorController) : AICollectorController :=
  c.record (.SDL_Log c.m_Pawn.player (.entered .WANDER))

/-- `S_WANDER_LEAVE`: logs. -/
def S_WANDER_LEAVE (c : AICollectorController) : AICollectorController :=
  c.record (.SDL_Log c.m_Pawn.player (.left .WANDER))

/-- `S_MOVE_TO_BOUNTY_ENTER`: stops the pawn, then logs. -/
def S_MOVE_TO_BOUNTY_ENTER (c : AICollectorController) : AICollectorController :=
  let c1 := c.record .Stop
  c1.record (.SDL_Log c1.m_Pawn.player (.entered .MOVE_TO_BOUNTY))

/-- `S_MOVE_TO_BOUNTY_LEAVE`: logs. -/
def S_MOVE_TO_BOUNTY_LEAVE (c : AICollectorController) : AICollectorController :=
  c.record (.SDL_Log c.m_Pawn.player (.left .MOVE_TO_BOUNTY))

/-- `S_BOUNTY_COLLECTED_ENTER`: logs. -/
def S_BOUNTY_COLLECTED_ENTER (c : AICollectorController) : AICollectorController :=
  c.record (.SDL_Log c.m_Pawn.player (.entered .BOUNTY_COLLECTED))

/-- `S_BOUNTY_COLLECTED_LEAVE`: logs. -/
def S_BOUNTY_COLLECTED_LEAVE (c : AICollectorController) : AICollectorController :=
  c.record (.SDL_Log c.m_Pawn.player (.left .BOUNTY_COLLECTED))

/-- `S_STASH_BOUNTY_ENTER`: logs. -/
def S_STASH_BOUNTY_ENTER (c : AICollectorController) : AICollectorController :=
  c.record (.SDL_Log c.m_Pawn.player (.entered .STASH_BOUNTY))

/-- `S_STASH_BOUNTY_LEAVE`: logs. -/
def S_STASH_BOUNTY_LEAVE (c : AICollectorController) : AICollectorController :=
  c.record (.SDL_Log c.m_Pawn.player (.left .STASH_BOUNTY))

/-! ## The shared FSM machinery -/

/-- Modelled from the spec: the transition table of the FSM base class is not in
the source files; the enter hook of state `S` is the function `S_S_ENTER`. -/
def enterHook : State → AICollectorController → AICollectorController
  | .SPAWNED => S_SPAWNED_ENTER
  | .FIND_BOUNTY => S_FIND_BOUNTY_ENTER
  | .WANDER => S_WANDER_ENTER
  | .MOVE_TO_BOUNTY => S_MOVE_TO_BOUNTY_ENTER
  | .BOUNTY_COLLECTED => S_BOUNTY_COLLECTED_ENTER
  | .STASH_BOUNTY => S_STASH_BOUNTY_ENTER

/-- Modelled from the spec: the transition table of the FSM base class is not in
the source files; the leave hook of state `S` is the function `S_S_LEAVE`. -/
def leaveHook : State → AICollectorController → AICollectorController
  | .SPAWNED => S_SPAWNED_LEAVE
  | .FIND_BOUNTY => S_FIND_BOUNTY_LEAVE
  | .WANDER => S_WANDER_LEAVE
  | .MOVE_TO_BOUNTY => S_MOVE_TO_BOUNTY_LEAVE
  | .BOUNTY_COLLECTED => S_BOUNTY_COLLECTED_LEAVE
  | .STASH_BOUNTY => S_STASH_BOUNTY_LEAVE

/-- Modelled from the spec: `ChangeState` of the FSM base class is not in the
source files. It is synchronous: it invokes the leave hook of the current state
(an FSM with no active state has none to invoke), sets the new state, then
invokes the enter hook of the new state. The call itself is recorded. -/
def ChangeState (target : State) (c : AICollectorController) : AICollectorController :=
  let c1 := c.record (.ChangeStateCall target)
  let c2 := match c1.m_ActiveState with
    | none => c1
    | some s => leaveHook s c1
  enterHook target { c2 with m_ActiveState := some target }

/-- Modelled from the spec: `ResetFSM` is not in the source files. The spec has
the respawn handler "reset the FSM to its initial configuration (clear internal
transient fields, return to a fresh instance of the shared FSM machinery)" and
has the respawn clear "any previously targeted bounty"; no statement of the
handler itself writes `m_TargetedBounty`, so it is the reset that clears it. The
reset leaves the FSM with no active state and the controller with no targeted
bounty. -/
def ResetFSM (c : AICollectorController) : AICollectorController :=
  { c with m_ActiveState := none, m_TargetedBounty := none }

/-! ## State update functions -/

/-- `S_SPAWNED`: clears the target, stops the pawn, changes to `FIND_BOUNTY`. -/
def S_SPAWNED (c : AICollectorController) : AICollectorController :=
  let c1 := { c with m_TargetedBounty := none }
  let c2 := c1.record .Stop
  ChangeState .FIND_BOUNTY c2

/-- `S_FIND_BOUNTY`: asserts that no bounty is targeted, asks the configured
strategy for the next target among the detected bounty, and changes to `WANDER`
when there is none, to `MOVE_TO_BOUNTY` (after storing the target and its
position) otherwise. -/
def S_FIND_BOUNTY (E : Engine) (detected : List Bounty) (c : AICollectorController) :
    Except AssertionFailure AICollectorController :=
  match c.m_TargetedBounty with
  | some _ => .error ⟨"AI controller is in invalid state!", c⟩
  | none =>
    let c1 := c.record (.Strategy c.m_AICD.m_BountyCollectStrategy detected)
    match E.BountyCollectStrategies c1.m_AICD.m_BountyCollectStrategy c1.m_Pawn detected with
    | none => .ok (ChangeState .WANDER c1)
    | some nextTarget =>
      let c2 := { c1 with m_TargetedBounty := some nextTarget }
      let c3 := { c2 with m_TargetedBountyPosition := nextTarget.position }
      .ok (ChangeState .MOVE_TO_BOUNTY c3)

/-- `S_WANDER`: rolls the dice; when the value exceeds the stay chance it changes
to `FIND_BOUNTY` and returns; otherwise it moves the pawn full speed ahead and
steers left when a second roll exceeds `0.5f`, right otherwise. -/
def S_WANDER (rand1 rand2 : ℚ) (c : AICollectorController) : AICollectorController :=
  if rand1 > c.m_AICD.m_WanderStateStayChance then
    ChangeState .FIND_BOUNTY c
  else
    let c1 := c.record (.MoveForward COLLECTOR_MAX_MOVE_SPEED)
    let steering := floatMul c1.m_AICD.m_SteeringRatio_Wander COLLECTOR_MAX_TURN_SPEED
    if rand2 > 1 / 2 then
      c1.record (.TurnLeft steering)
    else
      c1.record (.TurnRight steering)

/-- `S_MOVE_TO_BOUNTY`: empty body. -/
def S_MOVE_TO_BOUNTY (c : AICollectorController) : AICollectorController := c

/-- `S_BOUNTY_COLLECTED`: empty body. -/
def S_BOUNTY_COLLECTED (c : AICollectorController) : AICollectorController := c

/-- `S_STASH_BOUNTY`: empty body. -/
def S_STASH_BOUNTY (c : AICollectorController) : AICollectorController := c

/-- Modelled from the spec: `UpdateStateMachine` of the FSM base class is not in
the source files. It executes the update function of the active state once; an
FSM with no active state has nothing to execute. -/
def UpdateStateMachine (E : Engine) (f : Frame) (c : AICollectorController) :
    Except AssertionFailure AICollectorController :=
  match c.m_ActiveState with
  | none => .ok c
  | some .SPAWNED => .ok (S_SPAWNED c)
  | some .FIND_BOUNTY => S_FIND_BOUNTY E f.detected c
  | some .WANDER => .ok (S_WANDER f.rand1 f.rand2 c)
  | some .MOVE_TO_BOUNTY => .ok (S_MOVE_TO_BOUNTY c)
  | some .BOUNTY_COLLECTED => .ok (S_BOUNTY_COLLECTED c)
  | some .STASH_BOUNTY => .ok (S_STASH_BOUNTY c)

/-- `DrawGizmos`: draws the radar, the avoider and, when a bounty is targeted, a
line from the current position of the pawn to the current position of the
targeted bounty. Only the renderer is called. -/
def DrawGizmos (f : Frame) (c : AICollectorController) : AICollectorController :=
  let c1 := c.record .DebugDrawRadar
  let c2 := c1.record .DebugDrawAvoider
  match c2.m_TargetedBounty with
  | some _ => c2.record (.DrawLine f.pawnPosition f.targetedBountyPosition)
  | none => c2

/-- `Update`: when the controller is not dead, updates the FSM and, when debug
drawing is enabled, draws the gizmos; when it is dead, does nothing. -/
def Update (E : Engine) (f : Frame) (c : AICollectorController) :
    Except AssertionFailure AICollectorController :=
  if c.m_isDead = false then
    match UpdateStateMachine E f c with
    | .error e => .error e
    | .ok c1 => if E.DEBUG_DRAWING_ENABLED = true then .ok (DrawGizmos f c1) else .ok c1
  else
    .ok c

/-! ## Event handlers -/

/-- `OnGameObjectKilled`: marks the controller dead when the killed entity is the pawn. -/
def OnGameObjectKilled (event : GameObjectKilled) (c : AICollectorController) :
    AICollectorController :=
  if event.m_EntityID = c.m_Pawn.entityId then
    { c with m_isDead := true }
  else
    c

/-- `OnGameObjectSpawned`: when the spawned entity is the pawn, resets the FSM,
changes to `SPAWNED` and marks the controller alive. -/
def OnGameObjectSpawned (event : GameObjectSpawned) (c : AICollectorController) :
    AICollectorController :=
  if event.m_EntityID = c.m_Pawn.entityId then
    let c1 := ResetFSM c
    let c2 := ChangeState .SPAWNED c1
    { c2 with m_isDead := false }
  else
    c

end AICollectorController

/-! ## Runs of the controller -/

/-- One thing that can happen to a controller between two observations. -/
inductive Step where
  | update (f : Frame)
  | killed (event : GameObjectKilled)
  | spawned (event : GameObjectSpawned)
  deriving DecidableEq, Repr

/-- Perform one step. -/
def step (E : Engine) (s : Step) (c : AICollectorController) :
    Except AssertionFailure AICollectorController :=
  match s with
  | .update f => c.Update E f
  | .killed event => .ok (c.OnGameObjectKilled event)
  | .spawned event => .ok (c.OnGameObjectSpawned event)

/-- Perform the steps of a list in order; a failing assertion ends the run. -/
def run (E : Engine) : List Step → AICollectorController →
    Except AssertionFailure AICollectorController
  | [], c => .ok c
  | s :: rest, c =>
    match step E s c with
    | .error e => .error e
    | .ok c1 => run E rest c1

/-! ## Views of the trace -/

/-- A pawn movement command: `Stop`, `MoveForward`, `TurnLeft` or `TurnRight`. -/
def Event.isMovement : Event → Bool
  | .Stop => true
  | .MoveForward _ => true
  | .TurnLeft _ => true
  | .TurnRight _ => true
  | _ => false

/-- A recorded call to `ChangeState`. -/
def Event.isChangeState : Event → Bool
  | .ChangeStateCall _ => true
  | _ => false

/-- A recorded call to a bounty selection strategy. -/
def Event.isStrategy : Event → Bool
  | .Strategy _ _ => true
  | _ => false

/-- An invocation of a state hook. -/
inductive HookCall where
  | leave (s : State)
  | enter (s : State)
  deriving DecidableEq, Repr

/-- The hook whose body wrote a log line; the other calls are not hook markers. -/
def Event.hook? : Event → Option HookCall
  | .SDL_Log _ (.left s) => some (.leave s)
  | .SDL_Log _ (.entered s) => some (.enter s)
  | _ => none

/-- The movement commands of a trace, in order. -/
def movements (t : List Event) : List Event := t.filter Event.isMovement

/-- The `ChangeState` calls of a trace, in order. -/
def transitions (t : List Event) : List Event := t.filter Event.isChangeState

/-- The hook invocations of a trace, in order. -/
def hookTrace (t : List Event) : List HookCall := t.filterMap Event.hook?

/-! ## Sample data -/

/-- A strategy that never selects a bounty. -/
def strategyNone : BountyCollectStrategy := fun _ _ => none

/-- A strategy that selects the first detected bounty. -/
def strategyFirst : BountyCollectStrategy := fun _ detected => detected.head?

/-- An engine whose strategy 0 selects the first detected bounty and whose other
strategies select none; debug drawing is disabled. -/
def sampleEngine : Engine :=
  { BountyCollectStrategies := fun k => if k = 0 then strategyFirst else strategyNone
    DEBUG_DRAWING_ENABLED := false }

/-- A bounty at (10, 0). -/
def sampleBounty : Bounty := { id := 7, position := { x := 10, y := 0 } }

/-- A live controller of pawn 1 (player 0) in the given state with the given target. -/
def sampleController (s : State) (target : Option Bounty) (stay : ℚ) : AICollectorController :=
  { m_Pawn := { entityId := 1, player := 0 }
    m_AICD := { m_BountyCollectStrategy := 0, m_WanderStateStayChance := stay,
                m_SteeringRatio_Wander := 1 / 4 }
    m_MyStashPosition := { x := 0, y := 0 }
    m_TargetedBounty := target
    m_TargetedBountyPosition := { x := 0, y := 0 }
    m_isDead := false
    m_ActiveState := some s
    trace := [] }

/-- A frame with the given detected bounty and rolls; the pawn is at (0, 0) and
the targeted entity at (10, 0). -/
def sampleFrame (detected : List Bounty) (r1 r2 : ℚ) : Frame :=
  { dt := 1 / 60, detected := detected, rand1 := r1, rand2 := r2,
    pawnPosition := { x := 0, y := 0 }, targetedBountyPosition := { x := 10, y := 0 } }

/-- The calls made by the enter hook of a state, for the pawn of player `p`. -/
def enterEvents (p : Nat) : State → List Event
  | .MOVE_TO_BOUNTY => [.Stop, .SDL_Log p (.entered .MOVE_TO_BOUNTY)]
  | s => [.SDL_Log p (.entered s)]

/-- The calls made by the leave hook of the active state, if there is one. -/
def leaveEvents (p : Nat) : Option State → List Event
  | none => []
  | some s => [.SDL_Log p (.left s)]

/-- The turn command of a wander step: left when the second roll exceeds one
half, right otherwise. -/
def wanderTurn (rand2 : ℚ) (steering : Float32) : Event :=
  if rand2 > 1 / 2 then .TurnLeft steering else .TurnRight steering

/-- A step that is the respawn of entity `id`. -/
def Step.isRespawnOf (id : Nat) : Step → Bool
  | .spawned event => decide (event.m_EntityID = id)
  | _ => false

/-! ## Construction and the controller invariant -/

/-- The constructor `AICollectorController(collectorId, playerId, desc)`: the
base class installs the pawn and a fresh FSM, the initialiser list stores the
configuration, a null target and `m_isDead = false`, the stash position is looked
up through the player system (`stashPosition` is the result of that lookup), the
pawn is given its player, and the FSM changes to `SPAWNED`. The constructor does
not initialise `m_TargetedBountyPosition`; `targetPosition` is whatever value the
field holds. The calls that register callbacks and add the radar and avoider
components are not traced. -/
def AICollectorController.construct (collectorId playerId : Nat)
    (desc : AICollectorControllerDesc) (stashPosition targetPosition : Vec2) :
    AICollectorController :=
  let c0 : AICollectorController :=
    { m_Pawn := { entityId := collectorId, player := playerId }
      m_AICD := desc
      m_MyStashPosition := stashPosition
      m_TargetedBounty := none
      m_TargetedBountyPosition := targetPosition
      m_isDead := false
      m_ActiveState := none
      trace := [] }
  AICollectorController.ChangeState .SPAWNED c0

/-- The invariant kept by every step of a constructed controller: the active
state is `SPAWNED`, `FIND_BOUNTY`, `WANDER` or `MOVE_TO_BOUNTY`, and no bounty is
targeted while the active state is `SPAWNED`, `FIND_BOUNTY` or `WANDER`. -/
def Invariant (c : AICollectorController) : Prop :=
  (c.m_ActiveState = some .SPAWNED ∨ c.m_ActiveState = some .FIND_BOUNTY ∨
    c.m_ActiveState = some .WANDER ∨ c.m_ActiveState = some .MOVE_TO_BOUNTY) ∧
  ((c.m_ActiveState = some .SPAWNED ∨ c.m_ActiveState = some .FIND_BOUNTY ∨
      c.m_ActiveState = some .WANDER) →
    c.m_TargetedBounty = none)

instance (c : AICollectorController) : Decidable (Invariant c) := by
  unfold Invariant
  exact inferInstance

/-- The sample configuration record: strategy 0, stay chance 1/2, steering ratio 1/4. -/
def sampleDesc : AICollectorControllerDesc :=
  { m_BountyCollectStrategy := 0, m_WanderStateStayChance := 1 / 2,
    m_SteeringRatio_Wander := 1 / 4 }

/-- A freshly constructed controller of pawn 1 for player 0 with its stash at (0, 0). -/
def sampleFresh : AICollectorController :=
  AICollectorController.construct 1 0 sampleDesc { x := 0, y := 0 } { x := 0, y := 0 }

/-! ## Lemmas on the FSM machinery -/

namespace AICollectorController

theorem RADIANS_eq : roundFloat (174533 / 10000000) = .finite RADIANS := by
  decide!

theorem TURN_eq : floatMul 360 RADIANS = .finite TURN := by
  decide!

theorem enterHook_eq (T : State) (c : AICollectorController) :
    enterHook T c = { c with trace := c.trace ++ enterEvents c.m_Pawn.player T } := by
  cases T <;> simp [enterHook, enterEvents, record, S_SPAWNED_ENTER, S_FIND_BOUNTY_ENTER,
    S_WANDER_ENTER, S_MOVE_TO_BOUNTY_ENTER, S_BOUNTY_COLLECTED_ENTER, S_STASH_BOUNTY_ENTER]

theorem leaveHook_eq (S : State) (c : AICollectorController) :
    leaveHook S c = { c with trace := c.trace ++ leaveEvents c.m_Pawn.player (some S) } := by
  cases S <;> simp [leaveHook, leaveEvents, record, S_SPAWNED_LEAVE, S_FIND_BOUNTY_LEAVE,
    S_WANDER_LEAVE, S_MOVE_TO_BOUNTY_LEAVE, S_BOUNTY_COLLECTED_LEAVE, S_STASH_BOUNTY_LEAVE]

theorem ChangeState_eq (T : State) (c : AICollectorController) :
    ChangeState T c =
      { c with
        m_ActiveState := some T
        trace := c.trace ++ Event.ChangeStateCall T ::
          (leaveEvents c.m_Pawn.player c.m_ActiveState ++ enterEvents c.m_Pawn.player T) } := by
  unfold ChangeState
  cases h : c.m_ActiveState with
  | none => simp [record, h, enterHook_eq, leaveEvents]
  | some s => simp [record, h, enterHook_eq, leaveHook_eq, leaveEvents]

theorem movements_append (a b : List Event) : movements (a ++ b) = movements a ++ movements b := by
  simp [movements]

theorem transitions_append (a b : List Event) :
    transitions (a ++ b) = transitions a ++ transitions b := by
  simp [transitions]

theorem hookTrace_append (a b : List Event) : hookTrace (a ++ b) = hookTrace a ++ hookTrace b := by
  simp [hookTrace]

theorem movements_leaveEvents (p : Nat) (s : Option State) : movements (leaveEvents p s) = [] := by
  cases s <;> simp [movements, leaveEvents, Event.isMovement]

theorem movements_enterEvents (p : Nat) (T : State) :
    movements (enterEvents p T) = if T = .MOVE_TO_BOUNTY then [.Stop] else [] := by
  cases T <;> simp [movements, enterEvents, Event.isMovement]

theorem hookTrace_leaveEvents (p : Nat) (S : State) :
    hookTrace (leaveEvents p (some S)) = [.leave S] := by
  simp [hookTrace, leaveEvents, Event.hook?]

theorem hookTrace_enterEvents (p : Nat) (T : State) : hookTrace (enterEvents p T) = [.enter T] := by
  cases T <;> simp [hookTrace, enterEvents, Event.hook?]

theorem S_SPAWNED_eq (c : AICollectorController) :
    S_SPAWNED c =
      { c with
        m_TargetedBounty := none
        m_ActiveState := some .FIND_BOUNTY
        trace := c.trace ++ Event.Stop :: Event.ChangeStateCall .FIND_BOUNTY ::
          (leaveEvents c.m_Pawn.player c.m_ActiveState ++
            enterEvents c.m_Pawn.player .FIND_BOUNTY) } := by
  simp [S_SPAWNED, ChangeState_eq, record]

theorem DrawGizmos_fields (f : Frame) (c : AICollectorController) :
    (DrawGizmos f c).m_Pawn = c.m_Pawn ∧ (DrawGizmos f c).m_AICD = c.m_AICD ∧
    (DrawGizmos f c).m_TargetedBounty = c.m_TargetedBounty ∧
    (DrawGizmos f c).m_TargetedBountyPosition = c.m_TargetedBountyPosition ∧
    (DrawGizmos f c).m_isDead = c.m_isDead ∧
    (DrawGizmos f c).m_ActiveState = c.m_ActiveState ∧
    movements (DrawGizmos f c).trace = movements c.trace ∧
    transitions (DrawGizmos f c).trace = transitions c.trace ∧
    hookTrace (DrawGizmos f c).trace = hookTrace c.trace := by
  unfold DrawGizmos
  cases h : c.m_TargetedBounty <;>
    simp [record, h, movements, transitions, hookTrace, Event.isMovement, Event.isChangeState,
      Event.hook?]

theorem S_FIND_BOUNTY_wander (E : Engine) (detected : List Bounty) (c : AICollectorController)
    (hnone : c.m_TargetedBounty = none)
    (hs : E.BountyCollectStrategies c.m_AICD.m_BountyCollectStrategy c.m_Pawn detected = none) :
    S_FIND_BOUNTY E detected c =
      .ok (ChangeState .WANDER (c.record (.Strategy c.m_AICD.m_BountyCollectStrategy detected))) := by
  simp [S_FIND_BOUNTY, hnone, record, hs]

theorem S_FIND_BOUNTY_move (E : Engine) (detected : List Bounty) (c : AICollectorController)
    (B : Bounty) (hnone : c.m_TargetedBounty = none)
    (hs : E.BountyCollectStrategies c.m_AICD.m_BountyCollectStrategy c.m_Pawn detected = some B) :
    S_FIND_BOUNTY E detected c =
      .ok (ChangeState .MOVE_TO_BOUNTY
        { c.record (.Strategy c.m_AICD.m_BountyCollectStrategy detected) with
          m_TargetedBounty := some B
          m_TargetedBountyPosition := B.position }) := by
  simp [S_FIND_BOUNTY, hnone, record, hs]

theorem S_FIND_BOUNTY_ok_of_none (E : Engine) (detected : List Bounty)
    (c : AICollectorController) (hnone : c.m_TargetedBounty = none) :
    ∃ c1, S_FIND_BOUNTY E detected c = .ok c1 := by
  cases hs : E.BountyCollectStrategies c.m_AICD.m_BountyCollectStrategy c.m_Pawn detected with
  | none => exact ⟨_, S_FIND_BOUNTY_wander E detected c hnone hs⟩
  | some B => exact ⟨_, S_FIND_BOUNTY_move E detected c B hnone hs⟩

theorem S_FIND_BOUNTY_fail (E : Engine) (detected : List Bounty) (c : AICollectorController)
    (b : Bounty) (hsome : c.m_TargetedBounty = some b) :
    S_FIND_BOUNTY E detected c = .error ⟨"AI controller is in invalid state!", c⟩ := by
  simp [S_FIND_BOUNTY, hsome]

theorem Update_dead (E : Engine) (f : Frame) (c : AICollectorController)
    (hdead : c.m_isDead = true) : Update E f c = .ok c := by
  simp [Update, hdead]

theorem Update_alive (E : Engine) (f : Frame) (c c1 : AICollectorController)
    (halive : c.m_isDead = false) (hu : UpdateStateMachine E f c = .ok c1) :
    ∃ c2, Update E f c = .ok c2 ∧
      c2.m_Pawn = c1.m_Pawn ∧ c2.m_AICD = c1.m_AICD ∧
      c2.m_TargetedBounty = c1.m_TargetedBounty ∧
      c2.m_TargetedBountyPosition = c1.m_TargetedBountyPosition ∧
      c2.m_isDead = c1.m_isDead ∧ c2.m_ActiveState = c1.m_ActiveState ∧
      movements c2.trace = movements c1.trace ∧
      transitions c2.trace = transitions c1.trace ∧
      hookTrace c2.trace = hookTrace c1.trace := by
  cases hd : E.DEBUG_DRAWING_ENABLED with
  | true => exact ⟨DrawGizmos f c1, by simp [Update, halive, hu, hd], DrawGizmos_fields f c1⟩
  | false => exact ⟨c1, by simp [Update, halive, hu, hd], by simp⟩

theorem Update_alive_error (E : Engine) (f : Frame) (c : AICollectorController)
    (e : AssertionFailure) (halive : c.m_isDead = false)
    (hu : UpdateStateMachine E f c = .error e) : Update E f c = .error e := by
  simp [Update, halive, hu]

theorem OnGameObjectKilled_self (event : GameObjectKilled) (c : AICollectorController)
    (hid : event.m_EntityID = c.m_Pawn.entityId) :
    OnGameObjectKilled event c = { c with m_isDead := true } := by
  simp [OnGameObjectKilled, hid]

theorem OnGameObjectKilled_other (event : GameObjectKilled) (c : AICollectorController)
    (hid : event.m_EntityID ≠ c.m_Pawn.entityId) : OnGameObjectKilled event c = c := by
  simp [OnGameObjectKilled, hid]

theorem OnGameObjectKilled_dead (event : GameObjectKilled) (c : AICollectorController)
    (hdead : c.m_isDead = true) : OnGameObjectKilled event c = c := by
  unfold OnGameObjectKilled
  split
  · cases c
    simp_all
  · rfl

theorem OnGameObjectSpawned_self (event : GameObjectSpawned) (c : AICollectorController)
    (hid : event.m_EntityID = c.m_Pawn.entityId) :
    OnGameObjectSpawned event c =
      { c with
        m_TargetedBounty := none
        m_isDead := false
        m_ActiveState := some .SPAWNED
        trace := c.trace ++
          [Event.ChangeStateCall .SPAWNED, Event.SDL_Log c.m_Pawn.player (.entered .SPAWNED)] } := by
  simp [OnGameObjectSpawned, hid, ResetFSM, ChangeState_eq, leaveEvents, enterEvents]

theorem OnGameObjectSpawned_other (event : GameObjectSpawned) (c : AICollectorController)
    (hid : event.m_EntityID ≠ c.m_Pawn.entityId) : OnGameObjectSpawned event c = c := by
  simp [OnGameObjectSpawned, hid]

theorem S_WANDER_exit (rand1 rand2 : ℚ) (c : AICollectorController)
    (h : rand1 > c.m_AICD.m_WanderStateStayChance) :
    S_WANDER rand1 rand2 c = ChangeState .FIND_BOUNTY c := by
  simp [S_WANDER, h]

theorem wanderTurn_isMovement (rand2 : ℚ) (steering : Float32) :
    (wanderTurn rand2 steering).isMovement = true := by
  unfold wanderTurn
  split <;> rfl

theorem wanderTurn_isChangeState (rand2 : ℚ) (steering : Float32) :
    (wanderTurn rand2 steering).isChangeState = false := by
  unfold wanderTurn
  split <;> rfl

theorem wanderTurn_hook (rand2 : ℚ) (steering : Float32) :
    (wanderTurn rand2 steering).hook? = none := by
  unfold wanderTurn
  split <;> rfl

theorem S_WANDER_stay (rand1 rand2 : ℚ) (c : AICollectorController)
    (h : ¬ rand1 > c.m_AICD.m_WanderStateStayChance) :
    S_WANDER rand1 rand2 c =
      { c with
        trace := c.trace ++
          [Event.MoveForward COLLECTOR_MAX_MOVE_SPEED,
            wanderTurn rand2
              (floatMul c.m_AICD.m_SteeringRatio_Wander COLLECTOR_MAX_TURN_SPEED)] } := by
  unfold S_WANDER wanderTurn
  rw [if_neg h]
  by_cases h2 : rand2 > 1 / 2
  · simp only [h2, if_true, record, List.append_assoc, List.singleton_append]
  · simp only [h2, if_false, record, List.append_assoc, List.singleton_append]

end AICollectorController

/-! ## The state update functions -/

open AICollectorController

/-- C1: the `FIND_BOUNTY` update run with no targeted bounty, for every pawn,
configuration and detected-bounty list. When the configured strategy returns none
the update succeeds, the active state is `WANDER` and the targeted bounty is still
none. When it returns a bounty `B` the update succeeds, the active state is
`MOVE_TO_BOUNTY`, the targeted bounty is `B` and the cached target position is the
position of `B`. -/
theorem find_bounty_selects (E : Engine) (detected : List Bounty) (c : AICollectorController)
    (hnone : c.m_TargetedBounty = none) :
    (E.BountyCollectStrategies c.m_AICD.m_BountyCollectStrategy c.m_Pawn detected = none →
      ∃ c1, S_FIND_BOUNTY E detected c = .ok c1 ∧ c1.m_ActiveState = some .WANDER ∧
        c1.m_TargetedBounty = none) ∧
    (∀ B, E.BountyCollectStrategies c.m_AICD.m_BountyCollectStrategy c.m_Pawn detected = some B →
      ∃ c1, S_FIND_BOUNTY E detected c = .ok c1 ∧ c1.m_ActiveState = some .MOVE_TO_BOUNTY ∧
        c1.m_TargetedBounty = some B ∧ c1.m_TargetedBountyPosition = B.position) := by
  constructor
  · intro hs
    refine ⟨_, S_FIND_BOUNTY_wander E detected c hnone hs, ?_, ?_⟩
    · simp [ChangeState_eq]
    · simp [ChangeState_eq, record, hnone]
  · intro B hs
    refine ⟨_, S_FIND_BOUNTY_move E detected c B hnone hs, ?_, ?_, ?_⟩
    · simp [ChangeState_eq]
    · simp [ChangeState_eq]
    · simp [ChangeState_eq]

/-- Witness for C1: with one detected bounty at (10, 0) the first-bounty strategy
targets it, and with nothing detected the controller wanders. -/
theorem find_bounty_selects_witness :
    (∃ c1, S_FIND_BOUNTY sampleEngine [sampleBounty] (sampleController .FIND_BOUNTY none 1) = .ok c1 ∧
      c1.m_ActiveState = some .MOVE_TO_BOUNTY ∧ c1.m_TargetedBounty = some sampleBounty ∧
      c1.m_TargetedBountyPosition = sampleBounty.position) ∧
    (∃ c1, S_FIND_BOUNTY sampleEngine [] (sampleController .FIND_BOUNTY none 1) = .ok c1 ∧
      c1.m_ActiveState = some .WANDER ∧ c1.m_TargetedBounty = none) :=
  ⟨(find_bounty_selects sampleEngine [sampleBounty] (sampleController .FIND_BOUNTY none 1) rfl).2
      sampleBounty rfl,
   (find_bounty_selects sampleEngine [] (sampleController .FIND_BOUNTY none 1) rfl).1 rfl⟩

/-- C2: the `FIND_BOUNTY` update raises the assertion failure if and only if the
targeted bounty is not none when it runs. When it fails, the controller at the
failure is the controller before the call: the trace has gained no call (the
strategy was not invoked, no `ChangeState` was requested) and the active state and
the targeted bounty are unchanged. -/
theorem find_bounty_assertion (E : Engine) (detected : List Bounty) (c : AICollectorController) :
    ((∃ e, S_FIND_BOUNTY E detected c = .error e) ↔ c.m_TargetedBounty ≠ none) ∧
    (∀ e, S_FIND_BOUNTY E detected c = .error e →
      e.state = c ∧ e.state.trace = c.trace ∧ e.state.m_ActiveState = c.m_ActiveState ∧
        e.state.m_TargetedBounty = c.m_TargetedBounty ∧
        e.message = "AI controller is in invalid state!") := by
  cases h : c.m_TargetedBounty with
  | some b =>
    rw [S_FIND_BOUNTY_fail E detected c b h]
    refine ⟨by simp, ?_⟩
    intro e he
    simp only [Except.error.injEq] at he
    subst he
    simp [h]
  | none =>
    obtain ⟨c1, hc1⟩ := S_FIND_BOUNTY_ok_of_none E detected c h
    rw [hc1]
    simp

/-- Witness for C2: in `FIND_BOUNTY` with a bounty still targeted the update fails
and the failure carries the untouched controller. -/
theorem find_bounty_assertion_witness :
    (sampleController .FIND_BOUNTY (some sampleBounty) 1).m_TargetedBounty ≠ none ∧
    ∃ e, S_FIND_BOUNTY sampleEngine [] (sampleController .FIND_BOUNTY (some sampleBounty) 1)
        = .error e ∧
      e.state = sampleController .FIND_BOUNTY (some sampleBounty) 1 :=
  have h := find_bounty_assertion sampleEngine []
    (sampleController .FIND_BOUNTY (some sampleBounty) 1)
  have hne : (sampleController .FIND_BOUNTY (some sampleBounty) 1).m_TargetedBounty ≠ none := by
    simp [sampleController]
  ⟨hne, (h.1.2 hne).elim fun e he => ⟨e, he, (h.2 e he).1⟩⟩

/-- C3: the `SPAWNED` update, for every prior value of the targeted bounty. After
it the targeted bounty is none, the pawn has received one more movement command,
`Stop`, and the active state is `FIND_BOUNTY`. The same holds of an `Update` of a
live controller in `SPAWNED` for every engine (strategy table) and every frame
(detected bounty, random draws): the transition depends on none of them. -/
theorem spawned_update (E : Engine) (f : Frame) (c : AICollectorController) :
    (S_SPAWNED c).m_TargetedBounty = none ∧
    (S_SPAWNED c).m_ActiveState = some .FIND_BOUNTY ∧
    movements (S_SPAWNED c).trace = movements c.trace ++ [.Stop] ∧
    (c.m_ActiveState = some .SPAWNED → c.m_isDead = false →
      ∃ c1, Update E f c = .ok c1 ∧ c1.m_TargetedBounty = none ∧
        c1.m_ActiveState = some .FIND_BOUNTY ∧
        movements c1.trace = movements c.trace ++ [.Stop]) := by
  have hm : movements (S_SPAWNED c).trace = movements c.trace ++ [.Stop] := by
    rw [S_SPAWNED_eq]
    simp only [movements_append]
    rw [show (Event.Stop :: Event.ChangeStateCall .FIND_BOUNTY ::
        (leaveEvents c.m_Pawn.player c.m_ActiveState ++
          enterEvents c.m_Pawn.player .FIND_BOUNTY)) =
        [Event.Stop, Event.ChangeStateCall .FIND_BOUNTY] ++
        (leaveEvents c.m_Pawn.player c.m_ActiveState ++
          enterEvents c.m_Pawn.player .FIND_BOUNTY) from rfl]
    simp only [movements_append, movements_leaveEvents, movements_enterEvents]
    simp [movements, Event.isMovement]
  refine ⟨by simp [S_SPAWNED_eq], by simp [S_SPAWNED_eq], hm, ?_⟩
  intro hst halive
  have hu : UpdateStateMachine E f c = .ok (S_SPAWNED c) := by
    simp [UpdateStateMachine, hst]
  obtain ⟨c2, h2, -, -, ht, -, -, ha, hmv, -, -⟩ := Update_alive E f c _ halive hu
  refine ⟨c2, h2, ?_, ?_, ?_⟩
  · rw [ht]
    simp [S_SPAWNED_eq]
  · rw [ha]
    simp [S_SPAWNED_eq]
  · rw [hmv, hm]

/-- Witness for C3: a live controller in `SPAWNED` that still holds a target. -/
theorem spawned_update_witness :
    ∃ c1, Update sampleEngine (sampleFrame [sampleBounty] 0 0)
        (sampleController .SPAWNED (some sampleBounty) 1) = .ok c1 ∧
      c1.m_TargetedBounty = none ∧ c1.m_ActiveState = some .FIND_BOUNTY ∧
      movements c1.trace =
        movements (sampleController .SPAWNED (some sampleBounty) 1).trace ++ [.Stop] :=
  (spawned_update sampleEngine (sampleFrame [sampleBounty] 0 0)
    (sampleController .SPAWNED (some sampleBounty) 1)).2.2.2 rfl rfl

/-! ## Kill and respawn -/

/-- C4: after an `EntityKilled` event for the controlled entity, every run of
steps that contains no `EntitySpawned` event for the controlled entity (any number
of `Update` calls, in any active state, possibly mixed with further kill events
and with spawn events of other entities) succeeds and leaves the controller
exactly as the kill left it: the trace has gained no call (no movement command, no
`ChangeState`), and the active state and the targeted bounty are those at the
kill. -/
theorem killed_freezes (E : Engine) (event : GameObjectKilled) (c : AICollectorController)
    (steps : List Step) (hid : event.m_EntityID = c.m_Pawn.entityId)
    (hno : ∀ s ∈ steps, s.isRespawnOf c.m_Pawn.entityId = false) :
    ∃ c1, run E steps (OnGameObjectKilled event c) = .ok c1 ∧
      c1 = { c with m_isDead := true } ∧ c1.trace = c.trace ∧
      c1.m_ActiveState = c.m_ActiveState ∧ c1.m_TargetedBounty = c.m_TargetedBounty := by
  rw [OnGameObjectKilled_self event c hid]
  refine ⟨{ c with m_isDead := true }, ?_, rfl, rfl, rfl, rfl⟩
  have key : ∀ (d : AICollectorController), d.m_isDead = true →
      d.m_Pawn.entityId = c.m_Pawn.entityId → run E steps d = .ok d := by
    induction steps with
    | nil => intro d _ _; rfl
    | cons s rest ih =>
      intro d hd hp
      have hrest : ∀ s ∈ rest, s.isRespawnOf c.m_Pawn.entityId = false :=
        fun s hs => hno s (List.mem_cons_of_mem _ hs)
      have hs := hno s (List.mem_cons_self _ _)
      have hstep : step E s d = .ok d := by
        cases s with
        | update f => exact Update_dead E f d hd
        | killed ev => simp [step, OnGameObjectKilled_dead ev d hd]
        | spawned ev =>
          have hne : ev.m_EntityID ≠ d.m_Pawn.entityId := by
            rw [hp]
            simpa [Step.isRespawnOf] using hs
          simp [step, OnGameObjectSpawned_other ev d hne]
      simp only [run, hstep]
      exact ih hrest d hd hp
  exact key _ rfl rfl

/-- Witness for C4: a collector killed while wandering, then two ticks, a second
kill event and the spawn of another entity. -/
theorem killed_freezes_witness :
    ∃ c1, run sampleEngine
        [.update (sampleFrame [sampleBounty] 1 1), .update (sampleFrame [] 0 0),
          .killed ⟨1⟩, .spawned ⟨2⟩]
        (OnGameObjectKilled ⟨1⟩ (sampleController .WANDER none 0)) = .ok c1 ∧
      c1 = { sampleController .WANDER none 0 with m_isDead := true } ∧
      c1.trace = (sampleController .WANDER none 0).trace ∧
      c1.m_ActiveState = (sampleController .WANDER none 0).m_ActiveState ∧
      c1.m_TargetedBounty = (sampleController .WANDER none 0).m_TargetedBounty :=
  killed_freezes sampleEngine ⟨1⟩ (sampleController .WANDER none 0) _ rfl (by decide)

/-- C5: an `EntitySpawned` event for the controlled entity sets the active state
to `SPAWNED` and the controller alive, for every active state and every liveness
value at the time the event arrives. In particular a controller in `WANDER` that
is killed (it is then dead, still in `WANDER`) and then respawned is alive in
`SPAWNED`, not in `WANDER`. -/
theorem spawned_event_resets (event : GameObjectSpawned) (c : AICollectorController)
    (hid : event.m_EntityID = c.m_Pawn.entityId) :
    (OnGameObjectSpawned event c).m_ActiveState = some .SPAWNED ∧
    (OnGameObjectSpawned event c).m_isDead = false ∧
    (∀ kill : GameObjectKilled, kill.m_EntityID = c.m_Pawn.entityId →
      c.m_ActiveState = some .WANDER →
      (OnGameObjectKilled kill c).m_isDead = true ∧
      (OnGameObjectKilled kill c).m_ActiveState = some .WANDER ∧
      (OnGameObjectSpawned event (OnGameObjectKilled kill c)).m_isDead = false ∧
      (OnGameObjectSpawned event (OnGameObjectKilled kill c)).m_ActiveState = some .SPAWNED) := by
  refine ⟨by simp [OnGameObjectSpawned_self event c hid],
    by simp [OnGameObjectSpawned_self event c hid], ?_⟩
  intro kill hk hw
  rw [OnGameObjectKilled_self kill c hk]
  rw [OnGameObjectSpawned_self event _ (by simpa using hid)]
  simp [hw]

/-- Witness for C5: kill then respawn of pawn 1 while it wanders. -/
theorem spawned_event_resets_witness :
    (OnGameObjectKilled ⟨1⟩ (sampleController .WANDER none 1)).m_isDead = true ∧
    (OnGameObjectKilled ⟨1⟩ (sampleController .WANDER none 1)).m_ActiveState = some .WANDER ∧
    (OnGameObjectSpawned ⟨1⟩
      (OnGameObjectKilled ⟨1⟩ (sampleController .WANDER none 1))).m_isDead = false ∧
    (OnGameObjectSpawned ⟨1⟩
      (OnGameObjectKilled ⟨1⟩ (sampleController .WANDER none 1))).m_ActiveState = some .SPAWNED :=
  (spawned_event_resets ⟨1⟩ (sampleController .WANDER none 1) rfl).2.2 ⟨1⟩ rfl rfl

/-- C6: an `EntitySpawned` event for the controlled entity clears any previously
targeted bounty. Immediately after the handler returns the targeted bounty is
none, whichever state was active and whichever bounty was targeted when the event
arrived; the controller is then alive in `SPAWNED`. The handler clears the target
through `ResetFSM`. -/
theorem spawned_event_clears_target (event : GameObjectSpawned) (c : AICollectorController)
    (hid : event.m_EntityID = c.m_Pawn.entityId) :
    (OnGameObjectSpawned event c).m_TargetedBounty = none ∧
    (OnGameObjectSpawned event c).m_ActiveState = some .SPAWNED ∧
    (OnGameObjectSpawned event c).m_isDead = false := by
  rw [OnGameObjectSpawned_self event c hid]
  exact ⟨rfl, rfl, rfl⟩

/-- Witness for C6: the respawn of pawn 1 while it holds a target in
`MOVE_TO_BOUNTY`. -/
theorem spawned_event_clears_target_witness :
    (sampleController .MOVE_TO_BOUNTY (some sampleBounty) 1).m_TargetedBounty
      = some sampleBounty ∧
    (OnGameObjectSpawned ⟨1⟩
      (sampleController .MOVE_TO_BOUNTY (some sampleBounty) 1)).m_TargetedBounty = none :=
  ⟨rfl, (spawned_event_clears_target ⟨1⟩
    (sampleController .MOVE_TO_BOUNTY (some sampleBounty) 1) rfl).1⟩

/-! ## Wandering -/

/-- Counterexample to C7 as stated: with stay chance 0 and the draw 0 exactly
(a value of [0,1)), the `WANDER` update does not change to `FIND_BOUNTY`: the
active state is still `WANDER`. -/
theorem wander_stay_zero_draw_zero :
    (0 : ℚ) ≤ 0 ∧ (0 : ℚ) < 1 ∧
    (sampleController .WANDER none 0).m_AICD.m_WanderStateStayChance = 0 ∧
    (S_WANDER 0 0 (sampleController .WANDER none 0)).m_ActiveState = some .WANDER ∧
    (S_WANDER 0 0 (sampleController .WANDER none 0)).m_ActiveState ≠ some .FIND_BOUNTY := by
  have h : ¬ (0 : ℚ) > (sampleController .WANDER none 0).m_AICD.m_WanderStateStayChance := by
    simp [sampleController]
  rw [S_WANDER_stay 0 0 _ h]
  exact ⟨le_refl _, by norm_num, rfl, rfl, by simp [sampleController]⟩

/-- C7, amended: with stay chance 0, a single `WANDER` update changes the active
state to `FIND_BOUNTY` for every random draw greater than 0 (so for every draw of
the open interval (0,1)); at the draw 0 exactly the comparison is strict and the
update leaves the active state as it was. -/
theorem wander_stay_zero (rand1 rand2 : ℚ) (c : AICollectorController)
    (hzero : c.m_AICD.m_WanderStateStayChance = 0) :
    (0 < rand1 → (S_WANDER rand1 rand2 c).m_ActiveState = some .FIND_BOUNTY) ∧
    (rand1 = 0 → (S_WANDER rand1 rand2 c).m_ActiveState = c.m_ActiveState) := by
  constructor
  · intro hpos
    rw [S_WANDER_exit rand1 rand2 c (by rw [hzero]; exact hpos)]
    simp [ChangeState_eq]
  · intro h0
    rw [S_WANDER_stay rand1 rand2 c (by rw [hzero, h0]; exact lt_irrefl 0)]

/-- Witness for C7, amended: the draws 1/2 and 0 with stay chance 0. -/
theorem wander_stay_zero_witness :
    (S_WANDER (1 / 2) 0 (sampleController .WANDER none 0)).m_ActiveState = some .FIND_BOUNTY ∧
    (S_WANDER 0 0 (sampleController .WANDER none 0)).m_ActiveState = some .WANDER :=
  ⟨(wander_stay_zero (1 / 2) 0 (sampleController .WANDER none 0) rfl).1 (by norm_num),
   (wander_stay_zero 0 0 (sampleController .WANDER none 0) rfl).2 rfl⟩

/-- C8: with stay chance 1, for every list of frames whose first draws lie in
[0,1) (of every length N, in particular N ≥ 1), the N `Update` calls of a live
controller that starts in `WANDER` all succeed, the active state after them is
still `WANDER`, and the trace has gained no `ChangeState` call: no update changes
to `FIND_BOUNTY`. -/
theorem wander_stay_one (E : Engine) (frames : List Frame) (c : AICollectorController)
    (hdraw : ∀ f ∈ frames, 0 ≤ f.rand1 ∧ f.rand1 < 1)
    (hone : c.m_AICD.m_WanderStateStayChance = 1)
    (halive : c.m_isDead = false) (hst : c.m_ActiveState = some .WANDER) :
    ∃ c1, run E (frames.map Step.update) c = .ok c1 ∧ c1.m_ActiveState = some .WANDER ∧
      transitions c1.trace = transitions c.trace := by
  induction frames generalizing c with
  | nil => exact ⟨c, rfl, hst, rfl⟩
  | cons f rest ih =>
    have hf := hdraw f (List.mem_cons_self _ _)
    have hstay : ¬ f.rand1 > c.m_AICD.m_WanderStateStayChance := by
      rw [hone]
      exact not_lt.mpr (le_of_lt hf.2)
    have hu : UpdateStateMachine E f c = .ok (S_WANDER f.rand1 f.rand2 c) := by
      simp [UpdateStateMachine, hst]
    obtain ⟨c2, h2, -, hcfg, -, -, hd, ha, -, htr, -⟩ := Update_alive E f c _ halive hu
    rw [S_WANDER_stay f.rand1 f.rand2 c hstay] at hcfg hd ha htr
    have htr2 : transitions c2.trace = transitions c.trace := by
      rw [htr]
      simp only [transitions_append]
      have hmf : Event.isChangeState (Event.MoveForward COLLECTOR_MAX_MOVE_SPEED) = false := rfl
      simp [transitions, List.filter_cons, wanderTurn_isChangeState, hmf]
    obtain ⟨c3, h3, ha3, htr3⟩ := ih c2
      (fun g hg => hdraw g (List.mem_cons_of_mem _ hg))
      (by rw [hcfg]; exact hone) (by rw [hd]; exact halive) (by rw [ha]; exact hst)
    refine ⟨c3, ?_, ha3, by rw [htr3, htr2]⟩
    simp only [List.map_cons, run, step, h2]
    exact h3

/-- Witness for C8: three ticks with draws 0, 1/2 and 99/100. -/
theorem wander_stay_one_witness :
    ∃ c1, run sampleEngine
        ([sampleFrame [] 0 0, sampleFrame [sampleBounty] (1 / 2) 1,
          sampleFrame [] (99 / 100) 0].map Step.update)
        (sampleController .WANDER none 1) = .ok c1 ∧
      c1.m_ActiveState = some .WANDER ∧
      transitions c1.trace = transitions (sampleController .WANDER none 1).trace :=
  wander_stay_one sampleEngine _ (sampleController .WANDER none 1)
    (by simp [sampleFrame]; norm_num) rfl rfl rfl

/-- C9: the `WANDER` update for any stay chance and any first draw. When the
first draw exceeds the stay chance the active state becomes `FIND_BOUNTY` and the
pawn receives no movement command. Otherwise the active state is unchanged (the
controller remains in `WANDER`) and the trace gains exactly two calls:
`MoveForward(COLLECTOR_MAX_MOVE_SPEED)`, then one turn command whose argument is
the `float` product of the wander steering ratio and `COLLECTOR_MAX_TURN_SPEED`,
which is `TurnLeft` when the second draw exceeds one half and `TurnRight`
otherwise. The move speed is 25; `RADIANS` is the `float` nearest to 0.0174533 and
the turn speed is the `float` product of 360 and `RADIANS`. -/
theorem wander_update (rand1 rand2 : ℚ) (c : AICollectorController) :
    (rand1 > c.m_AICD.m_WanderStateStayChance →
      (S_WANDER rand1 rand2 c).m_ActiveState = some .FIND_BOUNTY ∧
      movements (S_WANDER rand1 rand2 c).trace = movements c.trace) ∧
    (¬ rand1 > c.m_AICD.m_WanderStateStayChance →
      (S_WANDER rand1 rand2 c).m_ActiveState = c.m_ActiveState ∧
      (S_WANDER rand1 rand2 c).trace = c.trace ++
        [Event.MoveForward COLLECTOR_MAX_MOVE_SPEED,
          if rand2 > 1 / 2 then
            Event.TurnLeft (floatMul c.m_AICD.m_SteeringRatio_Wander COLLECTOR_MAX_TURN_SPEED)
          else
            Event.TurnRight
              (floatMul c.m_AICD.m_SteeringRatio_Wander COLLECTOR_MAX_TURN_SPEED)]) ∧
    COLLECTOR_MAX_MOVE_SPEED = 25 ∧
    roundFloat (174533 / 10000000) = .finite RADIANS ∧
    floatMul 360 RADIANS = .finite COLLECTOR_MAX_TURN_SPEED := by
  refine ⟨?_, ?_, rfl, RADIANS_eq, TURN_eq⟩
  · intro h
    rw [S_WANDER_exit rand1 rand2 c h, ChangeState_eq]
    refine ⟨rfl, ?_⟩
    rw [show (Event.ChangeStateCall .FIND_BOUNTY ::
        (leaveEvents c.m_Pawn.player c.m_ActiveState ++
          enterEvents c.m_Pawn.player .FIND_BOUNTY)) =
        [Event.ChangeStateCall .FIND_BOUNTY] ++
        (leaveEvents c.m_Pawn.player c.m_ActiveState ++
          enterEvents c.m_Pawn.player .FIND_BOUNTY) from rfl]
    simp only [movements_append, movements_leaveEvents, movements_enterEvents]
    simp [movements, Event.isMovement]
  · intro h
    rw [S_WANDER_stay rand1 rand2 c h]
    exact ⟨rfl, rfl⟩

/-- Witness for C9: stay chance 1/2 and steering ratio 1/4; the draw 3/4 leaves
`WANDER`, the draws 1/4 then 3/4 move forward at 25 and turn left, the draws 1/4
then 1/4 move forward at 25 and turn right, at the rate 411775 / 262144 (the
`float` product of 0.25 and the turn speed 411775 / 65536). -/
theorem wander_update_witness :
    (S_WANDER (3 / 4) 0 (sampleController .WANDER none (1 / 2))).m_ActiveState
      = some .FIND_BOUNTY ∧
    (S_WANDER (1 / 4) (3 / 4) (sampleController .WANDER none (1 / 2))).trace
      = [Event.MoveForward 25, Event.TurnLeft (.finite (411775 / 262144))] ∧
    (S_WANDER (1 / 4) (1 / 4) (sampleController .WANDER none (1 / 2))).trace
      = [Event.MoveForward 25, Event.TurnRight (.finite (411775 / 262144))] := by
  have h1 := (wander_update (3 / 4) 0 (sampleController .WANDER none (1 / 2))).1
    (by simp [sampleController]; norm_num)
  have h2 := (wander_update (1 / 4) (3 / 4) (sampleController .WANDER none (1 / 2))).2.1
    (by simp [sampleController]; norm_num)
  have h3 := (wander_update (1 / 4) (1 / 4) (sampleController .WANDER none (1 / 2))).2.1
    (by simp [sampleController]; norm_num)
  have hm : floatMul (sampleController .WANDER none (1 / 2)).m_AICD.m_SteeringRatio_Wander
      COLLECTOR_MAX_TURN_SPEED = .finite (411775 / 262144) := by
    decide!
  refine ⟨h1.1, ?_, ?_⟩
  · rw [h2.2, if_pos (by norm_num), hm]
    rfl
  · rw [h3.2, if_neg (by norm_num), hm]
    rfl

/-! ## Transitions -/

/-- C10: for every state `S` and every target state `T`, `ChangeState(T)` invoked
while `S` is active returns with `T` active, and the hook invocations it adds to
the trace are exactly the leave hook of `S` followed by the enter hook of `T`:
the leave hook runs on the controller while `S` is still active, then the state is
set, then the enter hook runs. For example the `SPAWNED` update adds exactly the
hook trace leave `SPAWNED`, enter `FIND_BOUNTY`. -/
theorem change_state_hooks (S T : State) (c : AICollectorController)
    (hS : c.m_ActiveState = some S) :
    (ChangeState T c).m_ActiveState = some T ∧
    hookTrace (ChangeState T c).trace = hookTrace c.trace ++ [.leave S, .enter T] ∧
    ChangeState T c =
      enterHook T { leaveHook S (c.record (.ChangeStateCall T)) with m_ActiveState := some T } ∧
    (S = .SPAWNED →
      hookTrace (S_SPAWNED c).trace = hookTrace c.trace ++ [.leave .SPAWNED, .enter .FIND_BOUNTY]) := by
  have hgen : ∀ (U : State) (d : AICollectorController), d.m_ActiveState = some S →
      hookTrace (ChangeState U d).trace = hookTrace d.trace ++ [.leave S, .enter U] := by
    intro U d hd
    rw [ChangeState_eq, hd]
    rw [show (Event.ChangeStateCall U ::
        (leaveEvents d.m_Pawn.player (some S) ++ enterEvents d.m_Pawn.player U)) =
        [Event.ChangeStateCall U] ++
        (leaveEvents d.m_Pawn.player (some S) ++ enterEvents d.m_Pawn.player U) from rfl]
    simp only [hookTrace_append, hookTrace_leaveEvents, hookTrace_enterEvents]
    simp [hookTrace, Event.hook?]
  refine ⟨by simp [ChangeState_eq], hgen T c hS, ?_, ?_⟩
  · simp [ChangeState, record, hS]
  · intro hsp
    subst hsp
    have h := hgen .FIND_BOUNTY (({ c with m_TargetedBounty := none } : AICollectorController).record
      .Stop) (by simpa [record] using hS)
    simpa [S_SPAWNED, record, hookTrace_append, hookTrace, Event.hook?] using h

/-- Witness for C10: the transition from `FIND_BOUNTY` to `MOVE_TO_BOUNTY`, and
the `SPAWNED` update. -/
theorem change_state_hooks_witness :
    hookTrace (ChangeState .MOVE_TO_BOUNTY (sampleController .FIND_BOUNTY none 1)).trace
      = [.leave .FIND_BOUNTY, .enter .MOVE_TO_BOUNTY] ∧
    hookTrace (S_SPAWNED (sampleController .SPAWNED none 1)).trace
      = [.leave .SPAWNED, .enter .FIND_BOUNTY] :=
  ⟨(change_state_hooks .FIND_BOUNTY .MOVE_TO_BOUNTY (sampleController .FIND_BOUNTY none 1) rfl).2.1,
   (change_state_hooks .SPAWNED .FIND_BOUNTY (sampleController .SPAWNED none 1) rfl).2.2.2 rfl⟩

/-! ## Counting transitions and movement commands -/

theorem transitions_leaveEvents (p : Nat) (s : Option State) :
    transitions (leaveEvents p s) = [] := by
  cases s <;> simp [transitions, leaveEvents, Event.isChangeState]

theorem transitions_enterEvents (p : Nat) (T : State) : transitions (enterEvents p T) = [] := by
  cases T <;> simp [transitions, enterEvents, Event.isChangeState]

theorem transitions_ChangeState (T : State) (c : AICollectorController) :
    transitions (ChangeState T c).trace = transitions c.trace ++ [.ChangeStateCall T] := by
  rw [ChangeState_eq]
  rw [show (Event.ChangeStateCall T ::
      (leaveEvents c.m_Pawn.player c.m_ActiveState ++ enterEvents c.m_Pawn.player T)) =
      [Event.ChangeStateCall T] ++
      (leaveEvents c.m_Pawn.player c.m_ActiveState ++ enterEvents c.m_Pawn.player T) from rfl]
  simp only [transitions_append, transitions_leaveEvents, transitions_enterEvents]
  simp [transitions, Event.isChangeState]

theorem movements_ChangeState (T : State) (c : AICollectorController) :
    movements (ChangeState T c).trace =
      movements c.trace ++ (if T = .MOVE_TO_BOUNTY then [.Stop] else []) := by
  rw [ChangeState_eq]
  rw [show (Event.ChangeStateCall T ::
      (leaveEvents c.m_Pawn.player c.m_ActiveState ++ enterEvents c.m_Pawn.player T)) =
      [Event.ChangeStateCall T] ++
      (leaveEvents c.m_Pawn.player c.m_ActiveState ++ enterEvents c.m_Pawn.player T) from rfl]
  simp only [movements_append, movements_leaveEvents, movements_enterEvents]
  simp [movements, Event.isMovement]

theorem transitions_enterHook (T : State) (c : AICollectorController) :
    transitions (enterHook T c).trace = transitions c.trace := by
  rw [enterHook_eq]
  simp only [transitions_append, transitions_enterEvents, List.append_nil]

theorem transitions_leaveHook (S : State) (c : AICollectorController) :
    transitions (leaveHook S c).trace = transitions c.trace := by
  rw [leaveHook_eq]
  simp only [transitions_append, transitions_leaveEvents, List.append_nil]

theorem transitions_S_SPAWNED (c : AICollectorController) :
    transitions (S_SPAWNED c).trace = transitions c.trace ++ [.ChangeStateCall .FIND_BOUNTY] := by
  unfold S_SPAWNED
  rw [transitions_ChangeState]
  simp [record, transitions, Event.isChangeState]

theorem transitions_S_WANDER_stay (rand1 rand2 : ℚ) (c : AICollectorController)
    (h : ¬ rand1 > c.m_AICD.m_WanderStateStayChance) :
    transitions (S_WANDER rand1 rand2 c).trace = transitions c.trace := by
  rw [S_WANDER_stay rand1 rand2 c h]
  have hmf : Event.isChangeState (Event.MoveForward COLLECTOR_MAX_MOVE_SPEED) = false := rfl
  simp [transitions, List.filter_cons, wanderTurn_isChangeState, hmf]

theorem UpdateStateMachine_transitions (E : Engine) (f : Frame) (c : AICollectorController) :
    (∀ c1, UpdateStateMachine E f c = .ok c1 →
      ∃ l, transitions c1.trace = transitions c.trace ++ l ∧ l.length ≤ 1) ∧
    (∀ e, UpdateStateMachine E f c = .error e → e.state = c) := by
  unfold UpdateStateMachine
  cases hst : c.m_ActiveState with
  | none =>
    refine ⟨?_, by simp⟩
    intro c1 h1
    simp only [Except.ok.injEq] at h1
    subst h1
    exact ⟨[], by simp, by simp⟩
  | some S =>
    cases S with
    | SPAWNED =>
      refine ⟨?_, by simp⟩
      intro c1 h1
      simp only [Except.ok.injEq] at h1
      subst h1
      exact ⟨_, transitions_S_SPAWNED c, by simp⟩
    | FIND_BOUNTY =>
      simp only
      cases ht : c.m_TargetedBounty with
      | some b =>
        rw [S_FIND_BOUNTY_fail E f.detected c b ht]
        refine ⟨by simp, ?_⟩
        intro e he
        simp only [Except.error.injEq] at he
        subst he
        rfl
      | none =>
        cases hs : E.BountyCollectStrategies c.m_AICD.m_BountyCollectStrategy c.m_Pawn
            f.detected with
        | none =>
          rw [S_FIND_BOUNTY_wander E f.detected c ht hs]
          refine ⟨?_, by simp⟩
          intro c1 h1
          simp only [Except.ok.injEq] at h1
          subst h1
          refine ⟨[.ChangeStateCall .WANDER], ?_, by simp⟩
          rw [transitions_ChangeState]
          simp [record, transitions, Event.isChangeState]
        | some B =>
          rw [S_FIND_BOUNTY_move E f.detected c B ht hs]
          refine ⟨?_, by simp⟩
          intro c1 h1
          simp only [Except.ok.injEq] at h1
          subst h1
          refine ⟨[.ChangeStateCall .MOVE_TO_BOUNTY], ?_, by simp⟩
          rw [transitions_ChangeState]
          simp [record, transitions, Event.isChangeState]
    | WANDER =>
      refine ⟨?_, by simp⟩
      intro c1 h1
      simp only [Except.ok.injEq] at h1
      subst h1
      by_cases hx : f.rand1 > c.m_AICD.m_WanderStateStayChance
      · rw [S_WANDER_exit f.rand1 f.rand2 c hx]
        exact ⟨_, transitions_ChangeState .FIND_BOUNTY c, by simp⟩
      · exact ⟨[], by simp [transitions_S_WANDER_stay f.rand1 f.rand2 c hx], by simp⟩
    | MOVE_TO_BOUNTY =>
      refine ⟨?_, by simp⟩
      intro c1 h1
      simp only [Except.ok.injEq, S_MOVE_TO_BOUNTY] at h1
      subst h1
      exact ⟨[], by simp, by simp⟩
    | BOUNTY_COLLECTED =>
      refine ⟨?_, by simp⟩
      intro c1 h1
      simp only [Except.ok.injEq, S_BOUNTY_COLLECTED] at h1
      subst h1
      exact ⟨[], by simp, by simp⟩
    | STASH_BOUNTY =>
      refine ⟨?_, by simp⟩
      intro c1 h1
      simp only [Except.ok.injEq, S_STASH_BOUNTY] at h1
      subst h1
      exact ⟨[], by simp, by simp⟩

/-- C11: every `Update` call performs at most one state transition. For every
controller (every active state, liveness value and target), engine (strategy
table) and frame (detected bounty, random draws): when the call succeeds the
`ChangeState` calls it adds to the trace, those made from hooks included, are at
most one; when it fails on the assertion it has added none. No enter hook and no
leave hook of any of the six states adds a `ChangeState` call. -/
theorem update_at_most_one_transition (E : Engine) (f : Frame) (c : AICollectorController) :
    (∀ c1, Update E f c = .ok c1 →
      ∃ l, transitions c1.trace = transitions c.trace ++ l ∧ l.length ≤ 1) ∧
    (∀ e, Update E f c = .error e → transitions e.state.trace = transitions c.trace) ∧
    (∀ S : State, transitions (enterHook S c).trace = transitions c.trace ∧
      transitions (leaveHook S c).trace = transitions c.trace) := by
  refine ⟨?_, ?_, fun S => ⟨transitions_enterHook S c, transitions_leaveHook S c⟩⟩
  · intro c1 h1
    cases hd : c.m_isDead with
    | true =>
      rw [Update_dead E f c hd] at h1
      simp only [Except.ok.injEq] at h1
      subst h1
      exact ⟨[], by simp, by simp⟩
    | false =>
      cases hu : UpdateStateMachine E f c with
      | error e =>
        rw [Update_alive_error E f c e hd hu] at h1
        simp at h1
      | ok c2 =>
        obtain ⟨c3, h3, -, -, -, -, -, -, -, htr, -⟩ := Update_alive E f c c2 hd hu
        rw [h3] at h1
        simp only [Except.ok.injEq] at h1
        subst h1
        rw [htr]
        exact (UpdateStateMachine_transitions E f c).1 c2 hu
  · intro e he
    cases hd : c.m_isDead with
    | true =>
      rw [Update_dead E f c hd] at he
      simp at he
    | false =>
      cases hu : UpdateStateMachine E f c with
      | error e2 =>
        rw [Update_alive_error E f c e2 hd hu] at he
        simp only [Except.error.injEq] at he
        subst he
        rw [(UpdateStateMachine_transitions E f c).2 e2 hu]
      | ok c2 =>
        obtain ⟨c3, h3, -⟩ := Update_alive E f c c2 hd hu
        rw [h3] at he
        simp at he

/-- Witness for C11: the `SPAWNED` update of a fresh controller adds one
`ChangeState` call. -/
theorem update_at_most_one_transition_witness :
    ∃ l, transitions (S_SPAWNED sampleFresh).trace = transitions sampleFresh.trace ++ l ∧
      l.length ≤ 1 :=
  (update_at_most_one_transition sampleEngine (sampleFrame [] 0 0) sampleFresh).1
    (S_SPAWNED sampleFresh) rfl

/-! ## One tick in each state -/

theorem Update_in_SPAWNED (E : Engine) (f : Frame) (c : AICollectorController)
    (halive : c.m_isDead = false) (hst : c.m_ActiveState = some .SPAWNED) :
    ∃ c1, Update E f c = .ok c1 ∧ c1.m_ActiveState = some .FIND_BOUNTY ∧
      c1.m_TargetedBounty = none ∧ c1.m_isDead = false ∧ c1.m_Pawn = c.m_Pawn ∧
      c1.m_AICD = c.m_AICD ∧ movements c1.trace = movements c.trace ++ [.Stop] := by
  have hu : UpdateStateMachine E f c = .ok (S_SPAWNED c) := by
    simp [UpdateStateMachine, hst]
  obtain ⟨c2, h2, hp, hcfg, ht, -, hd, ha, hmv, -, -⟩ := Update_alive E f c _ halive hu
  refine ⟨c2, h2, ?_, ?_, ?_, ?_, ?_, ?_⟩
  · rw [ha]; simp [S_SPAWNED_eq]
  · rw [ht]; simp [S_SPAWNED_eq]
  · rw [hd]; simp [S_SPAWNED_eq, halive]
  · rw [hp]; simp [S_SPAWNED_eq]
  · rw [hcfg]; simp [S_SPAWNED_eq]
  · rw [hmv]
    unfold S_SPAWNED
    rw [movements_ChangeState]
    simp [record, movements, Event.isMovement]

theorem Update_in_FIND_BOUNTY_none (E : Engine) (f : Frame) (c : AICollectorController)
    (halive : c.m_isDead = false) (hst : c.m_ActiveState = some .FIND_BOUNTY)
    (hnone : c.m_TargetedBounty = none)
    (hs : E.BountyCollectStrategies c.m_AICD.m_BountyCollectStrategy c.m_Pawn f.detected = none) :
    ∃ c1, Update E f c = .ok c1 ∧ c1.m_ActiveState = some .WANDER ∧
      c1.m_TargetedBounty = none ∧ c1.m_isDead = false ∧ c1.m_Pawn = c.m_Pawn ∧
      c1.m_AICD = c.m_AICD ∧ movements c1.trace = movements c.trace := by
  have hu : UpdateStateMachine E f c = .ok (ChangeState .WANDER
      (c.record (.Strategy c.m_AICD.m_BountyCollectStrategy f.detected))) := by
    simp only [UpdateStateMachine, hst]
    exact S_FIND_BOUNTY_wander E f.detected c hnone hs
  obtain ⟨c2, h2, hp, hcfg, ht, -, hd, ha, hmv, -, -⟩ := Update_alive E f c _ halive hu
  refine ⟨c2, h2, ?_, ?_, ?_, ?_, ?_, ?_⟩
  · rw [ha]; simp [ChangeState_eq]
  · rw [ht]; simp [ChangeState_eq, record, hnone]
  · rw [hd]; simp [ChangeState_eq, record, halive]
  · rw [hp]; simp [ChangeState_eq, record]
  · rw [hcfg]; simp [ChangeState_eq, record]
  · rw [hmv, movements_ChangeState]
    simp [record, movements, Event.isMovement]

theorem Update_in_FIND_BOUNTY_some (E : Engine) (f : Frame) (c : AICollectorController)
    (B : Bounty) (halive : c.m_isDead = false) (hst : c.m_ActiveState = some .FIND_BOUNTY)
    (hnone : c.m_TargetedBounty = none)
    (hs : E.BountyCollectStrategies c.m_AICD.m_BountyCollectStrategy c.m_Pawn f.detected
      = some B) :
    ∃ c1, Update E f c = .ok c1 ∧ c1.m_ActiveState = some .MOVE_TO_BOUNTY ∧
      c1.m_TargetedBounty = some B ∧ c1.m_TargetedBountyPosition = B.position ∧
      c1.m_isDead = false ∧ c1.m_Pawn = c.m_Pawn ∧ c1.m_AICD = c.m_AICD ∧
      movements c1.trace = movements c.trace ++ [.Stop] := by
  have hu := S_FIND_BOUNTY_move E f.detected c B hnone hs
  have hu2 : UpdateStateMachine E f c = S_FIND_BOUNTY E f.detected c := by
    simp only [UpdateStateMachine, hst]
  rw [← hu2] at hu
  obtain ⟨c2, h2, hp, hcfg, ht, hpos, hd, ha, hmv, -, -⟩ := Update_alive E f c _ halive hu
  refine ⟨c2, h2, ?_, ?_, ?_, ?_, ?_, ?_, ?_⟩
  · rw [ha]; simp [ChangeState_eq]
  · rw [ht]; simp [ChangeState_eq]
  · rw [hpos]; simp [ChangeState_eq]
  · rw [hd]; simp [ChangeState_eq, record, halive]
  · rw [hp]; simp [ChangeState_eq, record]
  · rw [hcfg]; simp [ChangeState_eq, record]
  · rw [hmv, movements_ChangeState]
    simp [record, movements, Event.isMovement]

theorem Update_in_WANDER (E : Engine) (f : Frame) (c : AICollectorController)
    (halive : c.m_isDead = false) (hst : c.m_ActiveState = some .WANDER) :
    ∃ c1, Update E f c = .ok c1 ∧
      (c1.m_ActiveState = some .FIND_BOUNTY ∨ c1.m_ActiveState = some .WANDER) ∧
      c1.m_TargetedBounty = c.m_TargetedBounty ∧ c1.m_isDead = false ∧
      c1.m_Pawn = c.m_Pawn ∧ c1.m_AICD = c.m_AICD := by
  have hu : UpdateStateMachine E f c = .ok (S_WANDER f.rand1 f.rand2 c) := by
    simp [UpdateStateMachine, hst]
  obtain ⟨c2, h2, hp, hcfg, ht, -, hd, ha, -, -, -⟩ := Update_alive E f c _ halive hu
  by_cases hx : f.rand1 > c.m_AICD.m_WanderStateStayChance
  · rw [S_WANDER_exit f.rand1 f.rand2 c hx] at hp hcfg ht hd ha
    refine ⟨c2, h2, Or.inl ?_, ?_, ?_, ?_, ?_⟩
    · rw [ha]; simp [ChangeState_eq]
    · rw [ht]; simp [ChangeState_eq]
    · rw [hd]; simp [ChangeState_eq, halive]
    · rw [hp]; simp [ChangeState_eq]
    · rw [hcfg]; simp [ChangeState_eq]
  · rw [S_WANDER_stay f.rand1 f.rand2 c hx] at hp hcfg ht hd ha
    exact ⟨c2, h2, Or.inr (by rw [ha]; exact hst), ht, by rw [hd]; exact halive, hp, hcfg⟩

theorem Update_idle (E : Engine) (f : Frame) (c : AICollectorController)
    (halive : c.m_isDead = false)
    (hst : c.m_ActiveState = some .MOVE_TO_BOUNTY ∨ c.m_ActiveState = some .BOUNTY_COLLECTED ∨
      c.m_ActiveState = some .STASH_BOUNTY) :
    ∃ c1, Update E f c = .ok c1 ∧ c1.m_ActiveState = c.m_ActiveState ∧
      c1.m_TargetedBounty = c.m_TargetedBounty ∧
      c1.m_TargetedBountyPosition = c.m_TargetedBountyPosition ∧
      c1.m_isDead = c.m_isDead ∧ c1.m_Pawn = c.m_Pawn ∧ c1.m_AICD = c.m_AICD ∧
      movements c1.trace = movements c.trace ∧ transitions c1.trace = transitions c.trace ∧
      (E.DEBUG_DRAWING_ENABLED = false → c1 = c) := by
  have hu : UpdateStateMachine E f c = .ok c := by
    rcases hst with h | h | h <;>
      simp [UpdateStateMachine, h, S_MOVE_TO_BOUNTY, S_BOUNTY_COLLECTED, S_STASH_BOUNTY]
  obtain ⟨c2, h2, hp, hcfg, ht, hpos, hd, ha, hmv, htr, -⟩ := Update_alive E f c _ halive hu
  refine ⟨c2, h2, ha, ht, hpos, hd, hp, hcfg, hmv, htr, ?_⟩
  intro hoff
  have h3 : Update E f c = .ok c := by simp [Update, halive, hu, hoff]
  rw [h3] at h2
  simp only [Except.ok.injEq] at h2
  exact h2.symm

/-! ## Construction -/

theorem construct_eq (collectorId playerId : Nat) (desc : AICollectorControllerDesc)
    (stashPosition targetPosition : Vec2) :
    AICollectorController.construct collectorId playerId desc stashPosition targetPosition =
      { m_Pawn := { entityId := collectorId, player := playerId }
        m_AICD := desc
        m_MyStashPosition := stashPosition
        m_TargetedBounty := none
        m_TargetedBountyPosition := targetPosition
        m_isDead := false
        m_ActiveState := some .SPAWNED
        trace := [.ChangeStateCall .SPAWNED, .SDL_Log playerId (.entered .SPAWNED)] } := by
  simp [AICollectorController.construct, ChangeState_eq, leaveEvents, enterEvents]

/-- C12: the scenario from construction. A freshly constructed controller is
alive, has no targeted bounty and is in `SPAWNED`. The first `Update` succeeds and
leaves it in `FIND_BOUNTY`. A second `Update` in which the configured strategy
returns a bounty `B` succeeds and leaves it in `MOVE_TO_BOUNTY` with `B` targeted
and the cached position equal to the position of `B`; a second `Update` in which
the strategy returns none succeeds and leaves it in `WANDER` with no target. -/
theorem construction_scenario (E : Engine) (collectorId playerId : Nat)
    (desc : AICollectorControllerDesc) (stashPosition targetPosition : Vec2) (f1 f2 : Frame) :
    (AICollectorController.construct collectorId playerId desc stashPosition
      targetPosition).m_isDead = false ∧
    (AICollectorController.construct collectorId playerId desc stashPosition
      targetPosition).m_TargetedBounty = none ∧
    (AICollectorController.construct collectorId playerId desc stashPosition
      targetPosition).m_ActiveState = some .SPAWNED ∧
    ∃ c1, Update E f1 (AICollectorController.construct collectorId playerId desc stashPosition
        targetPosition) = .ok c1 ∧ c1.m_ActiveState = some .FIND_BOUNTY ∧
      (∀ B, E.BountyCollectStrategies desc.m_BountyCollectStrategy
          { entityId := collectorId, player := playerId } f2.detected = some B →
        ∃ c2, Update E f2 c1 = .ok c2 ∧ c2.m_ActiveState = some .MOVE_TO_BOUNTY ∧
          c2.m_TargetedBounty = some B ∧ c2.m_TargetedBountyPosition = B.position) ∧
      (E.BountyCollectStrategies desc.m_BountyCollectStrategy
          { entityId := collectorId, player := playerId } f2.detected = none →
        ∃ c2, Update E f2 c1 = .ok c2 ∧ c2.m_ActiveState = some .WANDER ∧
          c2.m_TargetedBounty = none) := by
  have hd0 : (AICollectorController.construct collectorId playerId desc stashPosition
      targetPosition).m_isDead = false := by rw [construct_eq]
  have ht0 : (AICollectorController.construct collectorId playerId desc stashPosition
      targetPosition).m_TargetedBounty = none := by rw [construct_eq]
  have ha0 : (AICollectorController.construct collectorId playerId desc stashPosition
      targetPosition).m_ActiveState = some .SPAWNED := by rw [construct_eq]
  have hp0 : (AICollectorController.construct collectorId playerId desc stashPosition
      targetPosition).m_Pawn = { entityId := collectorId, player := playerId } := by
    rw [construct_eq]
  have hcfg0 : (AICollectorController.construct collectorId playerId desc stashPosition
      targetPosition).m_AICD = desc := by rw [construct_eq]
  refine ⟨hd0, ht0, ha0, ?_⟩
  obtain ⟨c1, h1, ha, ht, hd, hp, hcfg, -⟩ := Update_in_SPAWNED E f1 _ hd0 ha0
  rw [hp0] at hp
  rw [hcfg0] at hcfg
  refine ⟨c1, h1, ha, ?_, ?_⟩
  · intro B hs
    obtain ⟨c2, h2, ha2, ht2, hpos2, -⟩ :=
      Update_in_FIND_BOUNTY_some E f2 c1 B hd ha ht (by rw [hp, hcfg]; exact hs)
    exact ⟨c2, h2, ha2, ht2, hpos2⟩
  · intro hs
    obtain ⟨c2, h2, ha2, ht2, -⟩ :=
      Update_in_FIND_BOUNTY_none E f2 c1 hd ha ht (by rw [hp, hcfg]; exact hs)
    exact ⟨c2, h2, ha2, ht2⟩

/-- Witness for C12: pawn 1 of player 0, stash at (0, 0); on the second tick one
bounty at (10, 0) is detected and the first-bounty strategy returns it. -/
theorem construction_scenario_witness :
    ∃ c1, Update sampleEngine (sampleFrame [] 0 0) sampleFresh = .ok c1 ∧
      ∃ c2, Update sampleEngine (sampleFrame [sampleBounty] 0 0) c1 = .ok c2 ∧
        c2.m_ActiveState = some .MOVE_TO_BOUNTY ∧ c2.m_TargetedBounty = some sampleBounty ∧
        c2.m_TargetedBountyPosition = { x := 10, y := 0 } :=
  (construction_scenario sampleEngine 1 0 sampleDesc { x := 0, y := 0 } { x := 0, y := 0 }
    (sampleFrame [] 0 0) (sampleFrame [sampleBounty] 0 0)).2.2.2.elim
    fun c1 h => ⟨c1, h.1, h.2.2.1 sampleBounty rfl⟩

/-! ## Scope of the event handlers -/

/-- C13: the event handlers are scoped to the controlled entity. An `EntityKilled`
or `EntitySpawned` event whose entity id differs from the id of the pawn returns
the controller unchanged: liveness, active state, targeted bounty, cached target
position and the trace (so no pawn command is issued). An `EntityKilled` event for
the controlled entity changes only the liveness flag, to dead. -/
theorem handlers_scoped (c : AICollectorController) (kill : GameObjectKilled)
    (spawn : GameObjectSpawned) :
    (kill.m_EntityID ≠ c.m_Pawn.entityId → OnGameObjectKilled kill c = c) ∧
    (spawn.m_EntityID ≠ c.m_Pawn.entityId → OnGameObjectSpawned spawn c = c) ∧
    (kill.m_EntityID = c.m_Pawn.entityId →
      OnGameObjectKilled kill c = { c with m_isDead := true }) :=
  ⟨OnGameObjectKilled_other kill c, OnGameObjectSpawned_other spawn c,
    OnGameObjectKilled_self kill c⟩

/-- Witness for C13: events of entity 2 leave the controller of pawn 1 as it is;
the kill of entity 1 only sets the dead flag. -/
theorem handlers_scoped_witness :
    OnGameObjectKilled ⟨2⟩ (sampleController .WANDER (some sampleBounty) 1)
      = sampleController .WANDER (some sampleBounty) 1 ∧
    OnGameObjectSpawned ⟨2⟩ (sampleController .WANDER (some sampleBounty) 1)
      = sampleController .WANDER (some sampleBounty) 1 ∧
    OnGameObjectKilled ⟨1⟩ (sampleController .WANDER (some sampleBounty) 1)
      = { sampleController .WANDER (some sampleBounty) 1 with m_isDead := true } :=
  ⟨(handlers_scoped (sampleController .WANDER (some sampleBounty) 1) ⟨2⟩ ⟨2⟩).1 (by decide),
   (handlers_scoped (sampleController .WANDER (some sampleBounty) 1) ⟨2⟩ ⟨2⟩).2.1 (by decide),
   (handlers_scoped (sampleController .WANDER (some sampleBounty) 1) ⟨1⟩ ⟨2⟩).2.2 rfl⟩

/-! ## The placeholder states -/

/-- C15: the updates of `MOVE_TO_BOUNTY`, `BOUNTY_COLLECTED` and `STASH_BOUNTY`
are no-ops. The three update functions return the controller they are given, and
for a live controller in one of these three states any number of consecutive
`Update` calls succeeds, issues no pawn movement command, performs no transition,
and leaves the active state, the targeted bounty and the cached target position
unchanged. -/
theorem placeholder_updates_idle (E : Engine) (frames : List Frame) (c : AICollectorController)
    (halive : c.m_isDead = false)
    (hst : c.m_ActiveState = some .MOVE_TO_BOUNTY ∨ c.m_ActiveState = some .BOUNTY_COLLECTED ∨
      c.m_ActiveState = some .STASH_BOUNTY) :
    S_MOVE_TO_BOUNTY c = c ∧ S_BOUNTY_COLLECTED c = c ∧ S_STASH_BOUNTY c = c ∧
    ∃ c1, run E (frames.map Step.update) c = .ok c1 ∧
      c1.m_ActiveState = c.m_ActiveState ∧ c1.m_TargetedBounty = c.m_TargetedBounty ∧
      c1.m_TargetedBountyPosition = c.m_TargetedBountyPosition ∧
      movements c1.trace = movements c.trace ∧ transitions c1.trace = transitions c.trace := by
  refine ⟨rfl, rfl, rfl, ?_⟩
  induction frames generalizing c with
  | nil => exact ⟨c, rfl, rfl, rfl, rfl, rfl, rfl⟩
  | cons f rest ih =>
    obtain ⟨c2, h2, ha, ht, hpos, hd, -, -, hmv, htr, -⟩ := Update_idle E f c halive hst
    obtain ⟨c3, h3, ha3, ht3, hpos3, hmv3, htr3⟩ := ih c2 (by rw [hd]; exact halive)
      (by rw [ha]; exact hst)
    refine ⟨c3, ?_, by rw [ha3, ha], by rw [ht3, ht], by rw [hpos3, hpos], by rw [hmv3, hmv],
      by rw [htr3, htr]⟩
    simp only [List.map_cons, run, step, h2]
    exact h3

/-- Witness for C15: three ticks of a live controller holding a target in
`MOVE_TO_BOUNTY`. -/
theorem placeholder_updates_idle_witness :
    ∃ c1, run sampleEngine
        ([sampleFrame [] 0 0, sampleFrame [sampleBounty] 1 1, sampleFrame [] 0 1].map
          Step.update)
        (sampleController .MOVE_TO_BOUNTY (some sampleBounty) 1) = .ok c1 ∧
      c1.m_ActiveState = some .MOVE_TO_BOUNTY ∧ c1.m_TargetedBounty = some sampleBounty ∧
      c1.m_TargetedBountyPosition
        = (sampleController .MOVE_TO_BOUNTY (some sampleBounty) 1).m_TargetedBountyPosition ∧
      movements c1.trace = movements (sampleController .MOVE_TO_BOUNTY (some sampleBounty) 1).trace ∧
      transitions c1.trace
        = transitions (sampleController .MOVE_TO_BOUNTY (some sampleBounty) 1).trace :=
  (placeholder_updates_idle sampleEngine _ (sampleController .MOVE_TO_BOUNTY (some sampleBounty) 1)
    rfl (Or.inl rfl)).2.2.2

/-- C16: entering `MOVE_TO_BOUNTY` stops the pawn. Every `ChangeState` to
`MOVE_TO_BOUNTY`, from any controller, adds exactly one movement command, `Stop`,
and it is the enter hook that issues it, before its log line. No enter hook of
another state and no leave hook of any state issues a movement command. In
particular the `Update` of a live controller in `FIND_BOUNTY` whose strategy
returns a bounty succeeds, ends in `MOVE_TO_BOUNTY` and adds exactly one movement
command, `Stop`, which is therefore the last one of that `Update`. -/
theorem entering_move_to_bounty_stops (E : Engine) (f : Frame) (c : AICollectorController) :
    movements (ChangeState .MOVE_TO_BOUNTY c).trace = movements c.trace ++ [.Stop] ∧
    (S_MOVE_TO_BOUNTY_ENTER c).trace
      = c.trace ++ [.Stop, .SDL_Log c.m_Pawn.player (.entered .MOVE_TO_BOUNTY)] ∧
    (∀ T : State, T ≠ .MOVE_TO_BOUNTY → movements (enterHook T c).trace = movements c.trace) ∧
    (∀ S : State, movements (leaveHook S c).trace = movements c.trace) ∧
    (∀ B, c.m_isDead = false → c.m_ActiveState = some .FIND_BOUNTY →
      c.m_TargetedBounty = none →
      E.BountyCollectStrategies c.m_AICD.m_BountyCollectStrategy c.m_Pawn f.detected = some B →
      ∃ c1, Update E f c = .ok c1 ∧ c1.m_ActiveState = some .MOVE_TO_BOUNTY ∧
        movements c1.trace = movements c.trace ++ [.Stop]) := by
  refine ⟨?_, ?_, ?_, ?_, ?_⟩
  · rw [movements_ChangeState]
    simp
  · simp [S_MOVE_TO_BOUNTY_ENTER, record]
  · intro T hT
    rw [enterHook_eq]
    simp only [movements_append, movements_enterEvents, if_neg hT, List.append_nil]
  · intro S
    rw [leaveHook_eq]
    simp only [movements_append, movements_leaveEvents, List.append_nil]
  · intro B halive hst hnone hs
    obtain ⟨c1, h1, ha, -, -, -, -, -, hmv⟩ :=
      Update_in_FIND_BOUNTY_some E f c B halive hst hnone hs
    exact ⟨c1, h1, ha, hmv⟩

/-- Witness for C16: the tick of a live controller in `FIND_BOUNTY` that detects
the sample bounty. -/
theorem entering_move_to_bounty_stops_witness :
    ∃ c1, Update sampleEngine (sampleFrame [sampleBounty] 0 0)
        (sampleController .FIND_BOUNTY none 1) = .ok c1 ∧
      c1.m_ActiveState = some .MOVE_TO_BOUNTY ∧
      movements c1.trace = movements (sampleController .FIND_BOUNTY none 1).trace ++ [.Stop] :=
  (entering_move_to_bounty_stops sampleEngine (sampleFrame [sampleBounty] 0 0)
    (sampleController .FIND_BOUNTY none 1)).2.2.2.2 sampleBounty rfl rfl rfl rfl

/-! ## Reachable configurations -/

theorem Invariant_of_fields (c c1 : AICollectorController)
    (ha : c1.m_ActiveState = c.m_ActiveState) (ht : c1.m_TargetedBounty = c.m_TargetedBounty)
    (hinv : Invariant c) : Invariant c1 := by
  unfold Invariant at *
  rw [ha, ht]
  exact hinv

theorem Invariant_of_move (c : AICollectorController)
    (ha : c.m_ActiveState = some .MOVE_TO_BOUNTY) : Invariant c := by
  unfold Invariant
  rw [ha]
  simp

theorem Invariant_of_none (c : AICollectorController) (S : State)
    (ha : c.m_ActiveState = some S) (hS : S = .SPAWNED ∨ S = .FIND_BOUNTY ∨ S = .WANDER)
    (ht : c.m_TargetedBounty = none) : Invariant c := by
  unfold Invariant
  rw [ha]
  rcases hS with h | h | h <;> subst h <;> simp [ht]

theorem Invariant_construct (collectorId playerId : Nat) (desc : AICollectorControllerDesc)
    (stashPosition targetPosition : Vec2) :
    Invariant (AICollectorController.construct collectorId playerId desc stashPosition
      targetPosition) :=
  Invariant_of_none _ .SPAWNED (by rw [construct_eq]) (Or.inl rfl) (by rw [construct_eq])

theorem Invariant_Update (E : Engine) (f : Frame) (c : AICollectorController)
    (hinv : Invariant c) :
    ∃ c1, Update E f c = .ok c1 ∧ Invariant c1 ∧ c1.m_Pawn = c.m_Pawn := by
  cases hd : c.m_isDead with
  | true => exact ⟨c, Update_dead E f c hd, hinv, rfl⟩
  | false =>
    rcases hinv.1 with hst | hst | hst | hst
    · obtain ⟨c1, h1, ha, ht, -, hp, -⟩ := Update_in_SPAWNED E f c hd hst
      exact ⟨c1, h1, Invariant_of_none c1 _ ha (Or.inr (Or.inl rfl)) ht, hp⟩
    · have hnone := hinv.2 (Or.inr (Or.inl hst))
      cases hs : E.BountyCollectStrategies c.m_AICD.m_BountyCollectStrategy c.m_Pawn
          f.detected with
      | none =>
        obtain ⟨c1, h1, ha, ht, -, hp, -⟩ := Update_in_FIND_BOUNTY_none E f c hd hst hnone hs
        exact ⟨c1, h1, Invariant_of_none c1 _ ha (Or.inr (Or.inr rfl)) ht, hp⟩
      | some B =>
        obtain ⟨c1, h1, ha, -, -, -, hp, -⟩ :=
          Update_in_FIND_BOUNTY_some E f c B hd hst hnone hs
        exact ⟨c1, h1, Invariant_of_move c1 ha, hp⟩
    · have hnone := hinv.2 (Or.inr (Or.inr hst))
      obtain ⟨c1, h1, ha, ht, -, hp, -⟩ := Update_in_WANDER E f c hd hst
      rcases ha with ha | ha
      · exact ⟨c1, h1, Invariant_of_none c1 _ ha (Or.inr (Or.inl rfl))
          (by rw [ht]; exact hnone), hp⟩
      · exact ⟨c1, h1, Invariant_of_none c1 _ ha (Or.inr (Or.inr rfl))
          (by rw [ht]; exact hnone), hp⟩
    · obtain ⟨c1, h1, ha, -, -, -, hp, -⟩ := Update_idle E f c hd (Or.inl hst)
      exact ⟨c1, h1, Invariant_of_move c1 (by rw [ha]; exact hst), hp⟩

theorem Invariant_step (E : Engine) (s : Step) (c : AICollectorController)
    (hinv : Invariant c) :
    ∃ c1, step E s c = .ok c1 ∧ Invariant c1 ∧ c1.m_Pawn = c.m_Pawn := by
  cases s with
  | update f => exact Invariant_Update E f c hinv
  | killed event =>
    refine ⟨OnGameObjectKilled event c, rfl, ?_, ?_⟩
    · by_cases hid : event.m_EntityID = c.m_Pawn.entityId
      · rw [OnGameObjectKilled_self event c hid]
        exact Invariant_of_fields c _ rfl rfl hinv
      · rw [OnGameObjectKilled_other event c hid]
        exact hinv
    · by_cases hid : event.m_EntityID = c.m_Pawn.entityId
      · rw [OnGameObjectKilled_self event c hid]
      · rw [OnGameObjectKilled_other event c hid]
  | spawned event =>
    refine ⟨OnGameObjectSpawned event c, rfl, ?_, ?_⟩
    · by_cases hid : event.m_EntityID = c.m_Pawn.entityId
      · rw [OnGameObjectSpawned_self event c hid]
        exact Invariant_of_none _ .SPAWNED rfl (Or.inl rfl) rfl
      · rw [OnGameObjectSpawned_other event c hid]
        exact hinv
    · by_cases hid : event.m_EntityID = c.m_Pawn.entityId
      · rw [OnGameObjectSpawned_self event c hid]
      · rw [OnGameObjectSpawned_other event c hid]

theorem Invariant_run (E : Engine) (steps : List Step) (c : AICollectorController)
    (hinv : Invariant c) :
    ∃ c1, run E steps c = .ok c1 ∧ Invariant c1 ∧ c1.m_Pawn = c.m_Pawn := by
  induction steps generalizing c with
  | nil => exact ⟨c, rfl, hinv, rfl⟩
  | cons s rest ih =>
    obtain ⟨c1, h1, hinv1, hp1⟩ := Invariant_step E s c hinv
    obtain ⟨c2, h2, hinv2, hp2⟩ := ih c1 hinv1
    refine ⟨c2, ?_, hinv2, by rw [hp2, hp1]⟩
    simp only [run, h1]
    exact h2

theorem step_in_MOVE_TO_BOUNTY (E : Engine) (s : Step) (c : AICollectorController)
    (hst : c.m_ActiveState = some .MOVE_TO_BOUNTY) :
    (s.isRespawnOf c.m_Pawn.entityId = false →
      ∃ c1, step E s c = .ok c1 ∧ c1.m_ActiveState = some .MOVE_TO_BOUNTY) ∧
    (s.isRespawnOf c.m_Pawn.entityId = true →
      ∃ c1, step E s c = .ok c1 ∧ c1.m_ActiveState = some .SPAWNED) := by
  cases s with
  | update f =>
    refine ⟨fun _ => ?_, by simp [Step.isRespawnOf]⟩
    cases hd : c.m_isDead with
    | true => exact ⟨c, Update_dead E f c hd, hst⟩
    | false =>
      obtain ⟨c1, h1, ha, -⟩ := Update_idle E f c hd (Or.inl hst)
      exact ⟨c1, h1, by rw [ha]; exact hst⟩
  | killed event =>
    refine ⟨fun _ => ⟨OnGameObjectKilled event c, rfl, ?_⟩, by simp [Step.isRespawnOf]⟩
    by_cases hid : event.m_EntityID = c.m_Pawn.entityId
    · rw [OnGameObjectKilled_self event c hid]
      exact hst
    · rw [OnGameObjectKilled_other event c hid]
      exact hst
  | spawned event =>
    constructor
    · intro hno
      have hid : event.m_EntityID ≠ c.m_Pawn.entityId := by
        simpa [Step.isRespawnOf] using hno
      exact ⟨OnGameObjectSpawned event c, rfl, by
        rw [OnGameObjectSpawned_other event c hid]; exact hst⟩
    · intro hyes
      have hid : event.m_EntityID = c.m_Pawn.entityId := by
        simpa [Step.isRespawnOf] using hyes
      exact ⟨OnGameObjectSpawned event c, rfl, by rw [OnGameObjectSpawned_self event c hid]⟩

/-- C14: the controller invariant. In every configuration reachable from
construction by `Update` calls, `EntityKilled` events and `EntitySpawned` events
(every such run succeeds), whenever the targeted bounty is not none the active
state is one where a target is relevant (`MOVE_TO_BOUNTY`, `BOUNTY_COLLECTED` or
`STASH_BOUNTY`), and the target is none whenever the controller is in `SPAWNED`
or `FIND_BOUNTY`. A respawn clears the target through `ResetFSM`. -/
theorem target_invariant (E : Engine) (collectorId playerId : Nat)
    (desc : AICollectorControllerDesc) (stashPosition targetPosition : Vec2)
    (steps : List Step) :
    ∃ c, run E steps (AICollectorController.construct collectorId playerId desc stashPosition
        targetPosition) = .ok c ∧
      (c.m_TargetedBounty ≠ none →
        c.m_ActiveState = some .MOVE_TO_BOUNTY ∨ c.m_ActiveState = some .BOUNTY_COLLECTED ∨
        c.m_ActiveState = some .STASH_BOUNTY) ∧
      ((c.m_ActiveState = some .SPAWNED ∨ c.m_ActiveState = some .FIND_BOUNTY) →
        c.m_TargetedBounty = none) := by
  obtain ⟨c, hc, hinv, -⟩ := Invariant_run E steps _
    (Invariant_construct collectorId playerId desc stashPosition targetPosition)
  refine ⟨c, hc, ?_, ?_⟩
  · intro hne
    rcases hinv.1 with h | h | h | h
    · exact absurd (hinv.2 (Or.inl h)) hne
    · exact absurd (hinv.2 (Or.inr (Or.inl h))) hne
    · exact absurd (hinv.2 (Or.inr (Or.inr h))) hne
    · exact Or.inl h
  · intro h
    rcases h with h | h
    · exact hinv.2 (Or.inl h)
    · exact hinv.2 (Or.inr (Or.inl h))

/-- Witness for C14: a fresh controller of pawn 1 ticks twice, targeting the
detected bounty on the second tick (it is then in `MOVE_TO_BOUNTY` with the bounty
targeted), and then receives the `EntitySpawned` event of its pawn; it is in
`SPAWNED` and the target is none. -/
theorem target_invariant_witness :
    (∃ c0, run sampleEngine
        [.update (sampleFrame [] 0 0), .update (sampleFrame [sampleBounty] 0 0)] sampleFresh
          = .ok c0 ∧
      c0.m_ActiveState = some .MOVE_TO_BOUNTY ∧ c0.m_TargetedBounty = some sampleBounty) ∧
    ∃ c, run sampleEngine
        [.update (sampleFrame [] 0 0), .update (sampleFrame [sampleBounty] 0 0), .spawned ⟨1⟩]
        sampleFresh = .ok c ∧
      c.m_ActiveState = some .SPAWNED ∧ c.m_TargetedBounty = none :=
  ⟨⟨_, rfl, rfl, rfl⟩,
   (target_invariant sampleEngine 1 0 sampleDesc { x := 0, y := 0 } { x := 0, y := 0 }
    [.update (sampleFrame [] 0 0), .update (sampleFrame [sampleBounty] 0 0), .spawned ⟨1⟩]).elim
    fun c h =>
      have ha : c.m_ActiveState = some .SPAWNED :=
        (Except.ok.inj (h.1.symm.trans (rfl : run sampleEngine
          [.update (sampleFrame [] 0 0), .update (sampleFrame [sampleBounty] 0 0),
            .spawned ⟨1⟩] sampleFresh
          = .ok (OnGameObjectSpawned ⟨1⟩
              (ChangeState .MOVE_TO_BOUNTY
                { (S_SPAWNED sampleFresh).record (.Strategy 0 [sampleBounty]) with
                  m_TargetedBounty := some sampleBounty
                  m_TargetedBountyPosition := sampleBounty.position }))))) ▸ rfl
      ⟨c, h.1, ha, h.2.2 (Or.inl ha)⟩⟩

/-- C17: the `FIND_BOUNTY` assertion is unreachable in normal operation. Every
run from a freshly constructed controller (any list of `Update` calls with any
strategy results and random draws, `EntityKilled` events and `EntitySpawned`
events for any entity ids) succeeds, so no `FIND_BOUNTY` update in it hit the
assertion; in the configuration reached the targeted bounty is none whenever the
active state is `FIND_BOUNTY` or `WANDER`, the next `Update` succeeds too, and in
`FIND_BOUNTY` the state update itself succeeds on every detected-bounty list. -/
theorem find_bounty_assertion_unreachable (E : Engine) (collectorId playerId : Nat)
    (desc : AICollectorControllerDesc) (stashPosition targetPosition : Vec2)
    (steps : List Step) :
    ∃ c, run E steps (AICollectorController.construct collectorId playerId desc stashPosition
        targetPosition) = .ok c ∧
      ((c.m_ActiveState = some .FIND_BOUNTY ∨ c.m_ActiveState = some .WANDER) →
        c.m_TargetedBounty = none) ∧
      (∀ f, ∃ c1, Update E f c = .ok c1) ∧
      (c.m_ActiveState = some .FIND_BOUNTY →
        ∀ detected, ∃ c1, S_FIND_BOUNTY E detected c = .ok c1) := by
  obtain ⟨c, hc, hinv, -⟩ := Invariant_run E steps _
    (Invariant_construct collectorId playerId desc stashPosition targetPosition)
  refine ⟨c, hc, fun h => hinv.2 (Or.inr h), ?_, ?_⟩
  · intro f
    obtain ⟨c1, h1, -⟩ := Invariant_Update E f c hinv
    exact ⟨c1, h1⟩
  · intro hst detected
    exact S_FIND_BOUNTY_ok_of_none E detected c (hinv.2 (Or.inr (Or.inl hst)))

/-- Witness for C17: the controller of pawn 1 reaches `MOVE_TO_BOUNTY` with a
target, is killed and respawned there, and ticks twice more; the run succeeds,
ends in `FIND_BOUNTY` with no target, and the `FIND_BOUNTY` update succeeds. -/
theorem find_bounty_assertion_unreachable_witness :
    (∃ c0, run sampleEngine
        [.update (sampleFrame [] 0 0), .update (sampleFrame [sampleBounty] 0 0)] sampleFresh
          = .ok c0 ∧
      c0.m_ActiveState = some .MOVE_TO_BOUNTY ∧ c0.m_TargetedBounty = some sampleBounty) ∧
    ∃ c, run sampleEngine
        [.update (sampleFrame [] 0 0), .update (sampleFrame [sampleBounty] 0 0),
          .killed ⟨1⟩, .spawned ⟨1⟩, .update (sampleFrame [sampleBounty] 0 0)] sampleFresh
          = .ok c ∧
      c.m_ActiveState = some .FIND_BOUNTY ∧ c.m_TargetedBounty = none ∧
      ∃ c1, S_FIND_BOUNTY sampleEngine [sampleBounty] c = .ok c1 :=
  ⟨⟨_, rfl, rfl, rfl⟩,
   (find_bounty_assertion_unreachable sampleEngine 1 0 sampleDesc { x := 0, y := 0 }
      { x := 0, y := 0 }
      [.update (sampleFrame [] 0 0), .update (sampleFrame [sampleBounty] 0 0),
        .killed ⟨1⟩, .spawned ⟨1⟩, .update (sampleFrame [sampleBounty] 0 0)]).elim
    fun c h =>
      have ha : c.m_ActiveState = some .FIND_BOUNTY :=
        (Except.ok.inj (h.1.symm.trans (rfl : run sampleEngine
          [.update (sampleFrame [] 0 0), .update (sampleFrame [sampleBounty] 0 0),
            .killed ⟨1⟩, .spawned ⟨1⟩, .update (sampleFrame [sampleBounty] 0 0)] sampleFresh
          = .ok (S_SPAWNED (OnGameObjectSpawned ⟨1⟩ (OnGameObjectKilled ⟨1⟩
              (ChangeState .MOVE_TO_BOUNTY
                { (S_SPAWNED sampleFresh).record (.Strategy 0 [sampleBounty]) with
                  m_TargetedBounty := some sampleBounty
                  m_TargetedBountyPosition := sampleBounty.position }))))))) ▸ rfl
      ⟨c, h.1, ha, h.2.1 (Or.inl ha), h.2.2.2 ha [sampleBounty]⟩⟩

/-- C18: the reachable-state set of this core. Every run from a freshly
constructed controller (any list of `Update` calls, `EntityKilled` events and
`EntitySpawned` events) succeeds in a configuration whose active state is
`SPAWNED`, `FIND_BOUNTY`, `WANDER` or `MOVE_TO_BOUNTY`, never `BOUNTY_COLLECTED`
or `STASH_BOUNTY`. When it is `MOVE_TO_BOUNTY`, every further step that is not an
`EntitySpawned` event for the controlled entity succeeds and leaves it
`MOVE_TO_BOUNTY`, and an `EntitySpawned` event for the controlled entity changes
it to `SPAWNED`. -/
theorem reachable_states (E : Engine) (collectorId playerId : Nat)
    (desc : AICollectorControllerDesc) (stashPosition targetPosition : Vec2)
    (steps : List Step) :
    ∃ c, run E steps (AICollectorController.construct collectorId playerId desc stashPosition
        targetPosition) = .ok c ∧
      (c.m_ActiveState = some .SPAWNED ∨ c.m_ActiveState = some .FIND_BOUNTY ∨
        c.m_ActiveState = some .WANDER ∨ c.m_ActiveState = some .MOVE_TO_BOUNTY) ∧
      c.m_ActiveState ≠ some .BOUNTY_COLLECTED ∧ c.m_ActiveState ≠ some .STASH_BOUNTY ∧
      (c.m_ActiveState = some .MOVE_TO_BOUNTY → ∀ s : Step,
        (s.isRespawnOf collectorId = false →
          ∃ c1, step E s c = .ok c1 ∧ c1.m_ActiveState = some .MOVE_TO_BOUNTY) ∧
        (s.isRespawnOf collectorId = true →
          ∃ c1, step E s c = .ok c1 ∧ c1.m_ActiveState = some .SPAWNED)) := by
  obtain ⟨c, hc, hinv, hp⟩ := Invariant_run E steps _
    (Invariant_construct collectorId playerId desc stashPosition targetPosition)
  have hid : c.m_Pawn.entityId = collectorId := by
    rw [hp, construct_eq]
  refine ⟨c, hc, hinv.1, ?_, ?_, ?_⟩
  · intro h
    rcases hinv.1 with h1 | h1 | h1 | h1 <;> rw [h1] at h <;> simp at h
  · intro h
    rcases hinv.1 with h1 | h1 | h1 | h1 <;> rw [h1] at h <;> simp at h
  · intro hst s
    have h := step_in_MOVE_TO_BOUNTY E s c hst
    rw [hid] at h
    exact h

/-- Witness for C18: once the controller of pawn 1 is in `MOVE_TO_BOUNTY`, a tick
keeps it there and the respawn of pawn 1 changes it to `SPAWNED`. -/
theorem reachable_states_witness :
    ∃ c, run sampleEngine
        [.update (sampleFrame [] 0 0), .update (sampleFrame [sampleBounty] 0 0)] sampleFresh
          = .ok c ∧
      c.m_ActiveState = some .MOVE_TO_BOUNTY ∧
      (∃ c1, step sampleEngine (.update (sampleFrame [] 1 1)) c = .ok c1 ∧
        c1.m_ActiveState = some .MOVE_TO_BOUNTY) ∧
      (∃ c1, step sampleEngine (.spawned ⟨1⟩) c = .ok c1 ∧
        c1.m_ActiveState = some .SPAWNED) :=
  (reachable_states sampleEngine 1 0 sampleDesc { x := 0, y := 0 } { x := 0, y := 0 }
    [.update (sampleFrame [] 0 0), .update (sampleFrame [sampleBounty] 0 0)]).elim
    fun c h =>
      have ha : c.m_ActiveState = some .MOVE_TO_BOUNTY :=
        (Except.ok.inj (h.1.symm.trans (rfl : run sampleEngine
          [.update (sampleFrame [] 0 0), .update (sampleFrame [sampleBounty] 0 0)] sampleFresh
          = .ok (ChangeState .MOVE_TO_BOUNTY
                { (S_SPAWNED sampleFresh).record (.Strategy 0 [sampleBounty]) with
                  m_TargetedBounty := some sampleBounty
                  m_TargetedBountyPosition := sampleBounty.position })))) ▸ rfl
      ⟨c, h.1, ha, (h.2.2.2.2 ha (.update (sampleFrame [] 1 1))).1 rfl,
        (h.2.2.2.2 ha (.spawned ⟨1⟩)).2 rfl⟩

end BountyHunterDemo
